import Mathlib

/-!
# wixusb: kernel channel driver and WinUSB-style client facade

Shallow embedding of `wixusb_module.c` (kernel side) and `winusb_wrapper.c`
(user side).  Every entry point is a pure function of

* the session structure `usb_wixusb` it works on,
* the call arguments, and
* an environment `Env` that fixes what the kernel services called by the
  entry point answer (allocation, user copies, the USB core).

Each entry point returns its C return value, the session afterwards and the
ordered list of external calls it made (`Event`), with their scalar
arguments.  Buffer contents handed to the USB core are not traced.
-/

namespace Wixusb

/-! ## Constants -/

/-- Interrupted system call (linux/errno.h). -/
def EINTR : Int := 4
/-- Out of memory (linux/errno.h). -/
def ENOMEM : Int := 12
/-- Bad address (linux/errno.h). -/
def EFAULT : Int := 14
/-- No such device (linux/errno.h). -/
def ENODEV : Int := 19
/-- Invalid argument (linux/errno.h). -/
def EINVAL : Int := 22
/-- Inappropriate ioctl for device (linux/errno.h). -/
def ENOTTY : Int := 25

/-- Endpoint packet size, `#define EP_SIZE 0x40`. -/
def EP_SIZE : Nat := 0x40
/-- Capacity of the inline data buffer of a control packet. -/
def CTRL_BUFF_LENGTH : Nat := 128
/-- Capacity of the inline data buffer of a descriptor packet. -/
def DESC_BUFF_LENGTH : Nat := 128
/-- Largest bulk chunk the facade accepts. -/
def BULK_BUFF_LENGTH : Nat := 4096
/-- Largest write chunk the kernel side accepts. -/
def WIXUSB_BUFFSIZE : Nat := 4096
/-- Vendor id, `PID_CODES_VID`. -/
def VENDOR_ID : Nat := 0x1209
/-- The ioctl magic, the character `M`. -/
def WIXUSB_IOC_MAGIC : Nat := 77

/-- Member of `PIPE_POLICIES`. -/
def SHORT_PACKET_TERMINATE : Nat := 0x01
/-- Member of `PIPE_POLICIES`. -/
def PIPE_TRANSFER_TIMEOUT : Nat := 0x03

/-- C conversion of an integer to `int` (32 bit, two's complement). -/
def toInt32 (x : Int) : Int := (x + 2 ^ 31) % 2 ^ 32 - 2 ^ 31

/-- C conversion of an integer to `uint32_t`. -/
def toU32 (x : Int) : Nat := (x % 2 ^ 32).toNat

/-- C conversion of an integer to `unsigned long` (64 bit). -/
def toU64 (x : Int) : Nat := (x % 2 ^ 64).toNat

/-! ## ioctl numbers (`linux/ioctl.h`, generic layout) -/

/-- Direction bits: no data transfer. -/
def _IOC_NONE : Nat := 0
/-- Direction bits: user space writes. -/
def _IOC_WRITE : Nat := 1
/-- Direction bits: user space reads. -/
def _IOC_READ : Nat := 2

/-- Encoding of an ioctl number: nr in bits 0-7, type in bits 8-15, size in
bits 16-29, direction in bits 30-31. -/
def _IOC (dir type nr size : Nat) : Nat :=
  (dir <<< 30) ||| (type <<< 8) ||| nr ||| (size <<< 16)

/-- The type (magic) field of an ioctl number. -/
def _IOC_TYPE (cmd : Nat) : Nat := (cmd >>> 8) &&& 0xff

/-- The sequence number field of an ioctl number. -/
def _IOC_NR (cmd : Nat) : Nat := cmd &&& 0xff

/-- Size of `wixusb_ctrl_packet_t`: 8 byte header and 128 data bytes. -/
def sizeof_wixusb_ctrl_packet_t : Nat := 136
/-- Size of `wixusb_get_desc_t`: 4 byte enum, index, 128 data bytes, padded. -/
def sizeof_wixusb_get_desc_t : Nat := 136
/-- Size of `wixusb_set_pipe_policy_t`. -/
def sizeof_wixusb_set_pipe_policy_t : Nat := 8
/-- Size of `wixusb_vid_pid_t`. -/
def sizeof_wixusb_vid_pid_t : Nat := 4
/-- Size of `wixusb_intrpt_packet`: length byte and `EP_SIZE` data bytes. -/
def sizeof_wixusb_intrpt_packet : Nat := 65

/-- Opcode send-control, `_IOW(MAGIC, 0, wixusb_ctrl_packet_t)`. -/
def IOCTL_SEND_CTRL : Nat := _IOC _IOC_WRITE WIXUSB_IOC_MAGIC 0 sizeof_wixusb_ctrl_packet_t
/-- Opcode receive-control, `_IOWR(MAGIC, 1, wixusb_ctrl_packet_t)`. -/
def IOCTL_RECV_CTRL : Nat :=
  _IOC (_IOC_READ ||| _IOC_WRITE) WIXUSB_IOC_MAGIC 1 sizeof_wixusb_ctrl_packet_t
/-- Opcode get-descriptor, `_IOWR(MAGIC, 2, wixusb_get_desc_t)`. -/
def IOCTL_GET_DESC : Nat :=
  _IOC (_IOC_READ ||| _IOC_WRITE) WIXUSB_IOC_MAGIC 2 sizeof_wixusb_get_desc_t
/-- Opcode set-pipe-policy, `_IOW(MAGIC, 3, wixusb_set_pipe_policy_t)`. -/
def IOCTL_SET_PIPE_POL : Nat :=
  _IOC _IOC_WRITE WIXUSB_IOC_MAGIC 3 sizeof_wixusb_set_pipe_policy_t
/-- Opcode get-vendor-product-id, `_IOR(MAGIC, 5, wixusb_vid_pid_t)`. -/
def IOCTL_GET_VID_PID : Nat := _IOC _IOC_READ WIXUSB_IOC_MAGIC 5 sizeof_wixusb_vid_pid_t
/-- Opcode connectivity-check, the argument-less number 6 of the magic. -/
def IOCTL_IS_CONNECTED : Nat := _IOC _IOC_NONE WIXUSB_IOC_MAGIC 6 0
/-- Opcode interrupt-write, `_IOW(MAGIC, 7, wixusb_intrpt_packet)`. -/
def IOCTL_WRITE_INT : Nat := _IOC _IOC_WRITE WIXUSB_IOC_MAGIC 7 sizeof_wixusb_intrpt_packet

/-! ## Data model -/

/-- Setup packet of a control transfer; the fields are `UCHAR`, `UCHAR`,
`USHORT`, `USHORT`, `USHORT`. -/
structure WINUSB_SETUP_PACKET where
  RequestType : Nat
  Request : Nat
  Value : Nat
  Index : Nat
  Length : Nat
  deriving DecidableEq, Repr

/-- Control-transfer packet: header and `CTRL_BUFF_LENGTH` inline bytes. -/
structure wixusb_ctrl_packet_t where
  winusb_packet : WINUSB_SETUP_PACKET
  data : List Nat
  deriving DecidableEq, Repr

/-- Descriptor-query packet: type, index and `DESC_BUFF_LENGTH` inline bytes. -/
structure wixusb_get_desc_t where
  desc_type : Nat
  desc_idx : Nat
  data : List Nat
  deriving DecidableEq, Repr

/-- Pipe-policy packet: kind and 32-bit value. -/
structure wixusb_set_pipe_policy_t where
  policy_type : Nat
  policy_value : Nat
  deriving DecidableEq, Repr

/-- Identity packet. -/
structure wixusb_vid_pid_t where
  vid : Nat
  pid : Nat
  deriving DecidableEq, Repr

/-- Interrupt-write packet: `char length` (signed) and `EP_SIZE` inline bytes. -/
structure wixusb_intrpt_packet where
  length : Int
  data : List Nat
  deriving DecidableEq, Repr

/-- The session `struct usb_wixusb`.  `interface` is `none` for the null
pointer.  The state of `io_mutex` is carried by the lock and unlock events
of the trace. -/
structure usb_wixusb where
  usbdev : Nat
  interface : Option Nat
  kref : Int
  timeout : Nat
  open_counter : Int
  idProduct : Nat
  deriving DecidableEq, Repr

/-- The pipes the driver builds with `PIPE_BULK_IN`, `PIPE_BULK_OUT`,
`PIPE_INT_OUT` and `usb_sndctrlpipe(dev, 0)`. -/
inductive Pipe
  | bulk_in
  | bulk_out
  | int_out
  | snd_ctrl
  deriving DecidableEq, Repr

/-- Destination of a `copy_to_user`. -/
inductive UserDst
  | read_buffer
  | ctrl_data
  | desc_data
  | vid_pid (v : wixusb_vid_pid_t)
  deriving DecidableEq, Repr

/-- External calls made by the driver, with their scalar arguments as the
callee receives them: the USB core takes `int len` and `int timeout`, so the
session's `unsigned int timeout` arrives converted to `int`.  `kfree` is the
release of a scratch buffer, `kfree_dev` the `kfree(dev)` of the session. -/
inductive Event
  | mutex_lock
  | mutex_lock_interruptible (acquired : Bool)
  | mutex_unlock
  | kmalloc (size : Nat) (ok : Bool)
  | kfree
  | kfree_dev
  | copy_from_user (n : Nat)
  | copy_to_user (dst : UserDst) (n : Nat)
  | usb_control_msg (pipe : Pipe) (request requesttype value index size : Nat) (timeout : Int)
  | usb_get_descriptor (type index size : Nat)
  | usb_bulk_msg (pipe : Pipe) (len : Int) (timeout : Int)
  | usb_interrupt_msg (pipe : Pipe) (len : Int) (timeout : Int)
  | kref_get
  | kref_put
  | usb_put_dev (usbdev : Nat)
  deriving DecidableEq, Repr

/-- Answer of a USB core transfer call: the return value and, for bulk and
interrupt transfers, the value stored through `&actual_length`. -/
structure UsbResult where
  ret : Int
  actual_length : Int
  deriving DecidableEq, Repr

/-- What the kernel services answer during one entry-point call.  `usb k` is
the answer of the k-th USB core call made by the entry point. -/
structure Env where
  lock_interrupted : Bool
  kmalloc_ok : Bool
  copy_from_user_ok : Bool
  copy_to_user_ok : Bool
  usb : Nat → UsbResult

/-- The user memory `arg` points to, read under each packet layout. -/
structure UserArg where
  ctrl : wixusb_ctrl_packet_t
  desc : wixusb_get_desc_t
  policy : wixusb_set_pipe_policy_t
  intrpt : wixusb_intrpt_packet
  deriving DecidableEq, Repr

/-- Outcome of an entry point: C return value, session afterwards, calls made. -/
structure Ret where
  retval : Int
  dev : usb_wixusb
  trace : List Event
  deriving DecidableEq, Repr

/-- Outcome of the `switch (cmd)` body of `wixusb_ioctl`; `buff` tells whether
`buff` is non-null when the switch is left. -/
structure Body where
  retval : Int
  dev : usb_wixusb
  trace : List Event
  buff : Bool
  deriving DecidableEq, Repr

/-! ## `wixusb_read`, `wixusb_write` -/

/-- Model of `wixusb_read(file, buffer, count, ppos)` on the session
`file->private_data`. -/
def wixusb_read (env : Env) (dev : usb_wixusb) (count : Nat) : Ret :=
  let actual_length : Int := toInt32 count
  if count = 0 then
    ⟨actual_length, dev, []⟩
  else if env.lock_interrupted then
    ⟨-EINTR, dev, [.mutex_lock_interruptible false]⟩
  else if dev.interface.isNone then
    ⟨-ENODEV, dev, [.mutex_lock_interruptible true, .mutex_unlock]⟩
  else if !env.kmalloc_ok then
    ⟨-ENOMEM, dev, [.mutex_lock_interruptible true, .kmalloc count false, .mutex_unlock]⟩
  else
    let r := env.usb 0
    let pre : List Event :=
      [.mutex_lock_interruptible true, .kmalloc count true,
       .usb_bulk_msg .bulk_in (toInt32 count) (toInt32 dev.timeout)]
    if r.ret ≠ 0 then
      ⟨r.ret, dev, pre ++ [.kfree, .mutex_unlock]⟩
    else if !env.copy_to_user_ok then
      ⟨-EFAULT, dev,
        pre ++ [.copy_to_user .read_buffer (toU64 r.actual_length), .kfree, .mutex_unlock]⟩
    else
      ⟨r.actual_length, dev,
        pre ++ [.copy_to_user .read_buffer (toU64 r.actual_length), .mutex_unlock, .kfree]⟩

/-- Model of `wixusb_write(file, user_buffer, count, ppos)` on the session
`file->private_data`. -/
def wixusb_write (env : Env) (dev : usb_wixusb) (count : Nat) : Ret :=
  if count = 0 then
    ⟨0, dev, []⟩
  else if dev.interface.isNone then
    ⟨-ENODEV, dev, [.mutex_lock, .mutex_unlock]⟩
  else if count > WIXUSB_BUFFSIZE then
    ⟨-ENOMEM, dev, [.mutex_lock, .mutex_unlock]⟩
  else if !env.kmalloc_ok then
    ⟨-ENOMEM, dev, [.mutex_lock, .kmalloc count false, .mutex_unlock]⟩
  else if !env.copy_from_user_ok then
    ⟨-EFAULT, dev,
      [.mutex_lock, .kmalloc count true, .copy_from_user count, .kfree, .mutex_unlock]⟩
  else
    let r := env.usb 0
    let pre : List Event :=
      [.mutex_lock, .kmalloc count true, .copy_from_user count,
       .usb_bulk_msg .bulk_out (toInt32 count) (toInt32 dev.timeout)]
    if r.ret ≠ 0 then
      ⟨r.ret, dev, pre ++ [.kfree, .mutex_unlock]⟩
    else
      let writed_size := r.actual_length
      if count % EP_SIZE = 0 then
        let z := env.usb 1
        if z.ret ≠ 0 then
          ⟨z.ret, dev,
            pre ++ [.usb_bulk_msg .bulk_out 0 (toInt32 dev.timeout), .kfree, .mutex_unlock]⟩
        else
          ⟨writed_size, dev,
            pre ++ [.usb_bulk_msg .bulk_out 0 (toInt32 dev.timeout), .mutex_unlock, .kfree]⟩
      else
        ⟨writed_size, dev, pre ++ [.mutex_unlock, .kfree]⟩

/-! ## `wixusb_ioctl` -/

/-- Case `IOCTL_SEND_CTRL` of the switch. -/
def ioctl_send_ctrl (env : Env) (dev : usb_wixusb) (arg : UserArg) : Body :=
  if !env.kmalloc_ok then
    ⟨-ENOMEM, dev, [.kmalloc sizeof_wixusb_ctrl_packet_t false], false⟩
  else if !env.copy_from_user_ok then
    ⟨-EFAULT, dev,
      [.kmalloc sizeof_wixusb_ctrl_packet_t true, .copy_from_user sizeof_wixusb_ctrl_packet_t],
      true⟩
  else
    let p := arg.ctrl.winusb_packet
    ⟨(env.usb 0).ret, dev,
      [.kmalloc sizeof_wixusb_ctrl_packet_t true, .copy_from_user sizeof_wixusb_ctrl_packet_t,
       .usb_control_msg .snd_ctrl p.Request p.RequestType p.Value p.Index p.Length
         (toInt32 dev.timeout)],
      true⟩

/-- Case `IOCTL_RECV_CTRL` of the switch. -/
def ioctl_recv_ctrl (env : Env) (dev : usb_wixusb) (arg : UserArg) : Body :=
  if !env.kmalloc_ok then
    ⟨-ENOMEM, dev, [.kmalloc sizeof_wixusb_ctrl_packet_t false], false⟩
  else if !env.copy_from_user_ok then
    ⟨-EFAULT, dev,
      [.kmalloc sizeof_wixusb_ctrl_packet_t true, .copy_from_user sizeof_wixusb_ctrl_packet_t],
      true⟩
  else
    let p := arg.ctrl.winusb_packet
    let retval := (env.usb 0).ret
    let pre : List Event :=
      [.kmalloc sizeof_wixusb_ctrl_packet_t true, .copy_from_user sizeof_wixusb_ctrl_packet_t,
       .usb_control_msg .snd_ctrl p.Request p.RequestType p.Value p.Index p.Length
         (toInt32 dev.timeout)]
    if retval < 0 then
      ⟨retval, dev, pre, true⟩
    else if !env.copy_to_user_ok then
      ⟨-EFAULT, dev, pre ++ [.copy_to_user .ctrl_data (toU64 retval)], true⟩
    else
      ⟨retval, dev, pre ++ [.copy_to_user .ctrl_data (toU64 retval)], true⟩

/-- Case `IOCTL_GET_DESC` of the switch.  `usb_get_descriptor` takes
`unsigned char type`, so the enum `desc_type` arrives modulo 256. -/
def ioctl_get_desc (env : Env) (dev : usb_wixusb) (arg : UserArg) : Body :=
  if !env.kmalloc_ok then
    ⟨-ENOMEM, dev, [.kmalloc sizeof_wixusb_get_desc_t false], false⟩
  else if !env.copy_from_user_ok then
    ⟨-EFAULT, dev,
      [.kmalloc sizeof_wixusb_get_desc_t true, .copy_from_user sizeof_wixusb_get_desc_t], true⟩
  else
    let retval := (env.usb 0).ret
    let pre : List Event :=
      [.kmalloc sizeof_wixusb_get_desc_t true, .copy_from_user sizeof_wixusb_get_desc_t,
       .usb_get_descriptor (arg.desc.desc_type % 256) arg.desc.desc_idx DESC_BUFF_LENGTH]
    if retval < 0 then
      ⟨retval, dev, pre, true⟩
    else if !env.copy_to_user_ok then
      ⟨-EFAULT, dev, pre ++ [.copy_to_user .desc_data (toU64 retval)], true⟩
    else
      ⟨retval, dev, pre ++ [.copy_to_user .desc_data (toU64 retval)], true⟩

/-- Case `IOCTL_SET_PIPE_POL` of the switch. -/
def ioctl_set_pipe_pol (env : Env) (dev : usb_wixusb) (arg : UserArg) : Body :=
  if !env.kmalloc_ok then
    ⟨-ENOMEM, dev, [.kmalloc sizeof_wixusb_set_pipe_policy_t false], false⟩
  else if !env.copy_from_user_ok then
    ⟨-EFAULT, dev,
      [.kmalloc sizeof_wixusb_set_pipe_policy_t true,
       .copy_from_user sizeof_wixusb_set_pipe_policy_t], true⟩
  else
    let pre : List Event :=
      [.kmalloc sizeof_wixusb_set_pipe_policy_t true,
       .copy_from_user sizeof_wixusb_set_pipe_policy_t]
    if arg.policy.policy_type = SHORT_PACKET_TERMINATE then
      ⟨0, dev, pre, true⟩
    else if arg.policy.policy_type = PIPE_TRANSFER_TIMEOUT then
      ⟨0, { dev with timeout := arg.policy.policy_value % 2 ^ 32 }, pre, true⟩
    else
      ⟨-EINVAL, dev, pre, true⟩

/-- Case `IOCTL_GET_VID_PID` of the switch. -/
def ioctl_get_vid_pid (env : Env) (dev : usb_wixusb) : Body :=
  let vidpid : wixusb_vid_pid_t := { pid := dev.idProduct, vid := VENDOR_ID }
  if !env.copy_to_user_ok then
    ⟨-EFAULT, dev, [.copy_to_user (.vid_pid vidpid) sizeof_wixusb_vid_pid_t], false⟩
  else
    ⟨0, dev, [.copy_to_user (.vid_pid vidpid) sizeof_wixusb_vid_pid_t], false⟩

/-- Case `IOCTL_WRITE_INT` of the switch. -/
def ioctl_write_int (env : Env) (dev : usb_wixusb) (arg : UserArg) : Body :=
  if !env.kmalloc_ok then
    ⟨-ENOMEM, dev, [.kmalloc sizeof_wixusb_intrpt_packet false], false⟩
  else if !env.copy_from_user_ok then
    ⟨-EFAULT, dev,
      [.kmalloc sizeof_wixusb_intrpt_packet true, .copy_from_user sizeof_wixusb_intrpt_packet],
      true⟩
  else
    ⟨(env.usb 0).ret, dev,
      [.kmalloc sizeof_wixusb_intrpt_packet true, .copy_from_user sizeof_wixusb_intrpt_packet,
       .usb_interrupt_msg .int_out arg.intrpt.length (toInt32 dev.timeout)],
      true⟩

/-- The `switch (cmd)` of `wixusb_ioctl`. -/
def ioctl_switch (env : Env) (dev : usb_wixusb) (cmd : Nat) (arg : UserArg) : Body :=
  if cmd = IOCTL_SEND_CTRL then ioctl_send_ctrl env dev arg
  else if cmd = IOCTL_RECV_CTRL then ioctl_recv_ctrl env dev arg
  else if cmd = IOCTL_GET_DESC then ioctl_get_desc env dev arg
  else if cmd = IOCTL_SET_PIPE_POL then ioctl_set_pipe_pol env dev arg
  else if cmd = IOCTL_GET_VID_PID then ioctl_get_vid_pid env dev
  else if cmd = IOCTL_IS_CONNECTED then ⟨0, dev, [], false⟩
  else if cmd = IOCTL_WRITE_INT then ioctl_write_int env dev arg
  else ⟨-ENOTTY, dev, [], false⟩

/-- Model of `wixusb_ioctl(file, cmd, arg)` on the session
`file->private_data`. -/
def wixusb_ioctl (env : Env) (dev : usb_wixusb) (cmd : Nat) (arg : UserArg) : Ret :=
  if dev.interface.isNone then
    ⟨-ENODEV, dev, [.mutex_lock, .mutex_unlock]⟩
  else if _IOC_TYPE cmd ≠ WIXUSB_IOC_MAGIC then
    ⟨-ENOTTY, dev, [.mutex_lock, .mutex_unlock]⟩
  else
    let b := ioctl_switch env dev cmd arg
    ⟨b.retval, b.dev,
      [.mutex_lock] ++ b.trace ++ [.mutex_unlock] ++ (if b.buff then [.kfree] else [])⟩

/-- Whether an event is a call of one of the USB core transfer primitives
(control, bulk, interrupt; the descriptor fetch is a control transfer). -/
def Event.isTransfer : Event → Bool
  | .usb_control_msg .. => true
  | .usb_get_descriptor .. => true
  | .usb_bulk_msg .. => true
  | .usb_interrupt_msg .. => true
  | _ => false

/-- The timeout argument of a transfer call; the descriptor fetch has none. -/
def Event.timeoutArg : Event → Option Int
  | .usb_control_msg _ _ _ _ _ _ t => some t
  | .usb_bulk_msg _ _ t => some t
  | .usb_interrupt_msg _ _ t => some t
  | _ => none

/-- Bytes copied to user space by the trace: the sum of the byte counts of
its `copy_to_user` calls into the given destination. -/
def copiedTo (dst : UserDst) : List Event → Nat
  | [] => 0
  | .copy_to_user d n :: es => (if d = dst then n else 0) + copiedTo dst es
  | _ :: es => copiedTo dst es

/-- An environment in which every service succeeds and every USB call
answers `r`. -/
def Env.const (r : UsbResult) : Env :=
  { lock_interrupted := false, kmalloc_ok := true, copy_from_user_ok := true,
    copy_to_user_ok := true, usb := fun _ => r }

/-- A connected session with the given timeout, as used in examples. -/
def sampleDev (timeout : Nat) : usb_wixusb :=
  { usbdev := 1, interface := some 1, kref := 2, timeout := timeout, open_counter := 0,
    idProduct := 1 }

/-- A zeroed user argument with the given control header length. -/
def sampleArg (len : Nat) : UserArg :=
  { ctrl := { winusb_packet := ⟨0x80, 6, 0, 0, len⟩, data := List.replicate 128 0 },
    desc := { desc_type := 1, desc_idx := 0, data := List.replicate 128 0 },
    policy := { policy_type := PIPE_TRANSFER_TIMEOUT, policy_value := 500 },
    intrpt := { length := 100, data := List.replicate 64 0 } }


/-! ## Session lifetime: probe, open, release, disconnect -/

/-- The driver state around one session: the session itself, whether the
interface's driver data points to it (`usb_get_intfdata`), whether its minor is
registered (`usb_find_interface` finds the interface), and how many times
`wixusb_delete` has run on it. -/
structure Sys where
  dev : usb_wixusb
  intfdata : Bool
  registered : Bool
  deleted : Nat
  deriving DecidableEq, Repr

/-- Outcome of an entry point on the driver state. -/
structure SysRet where
  retval : Int
  sys : Sys
  trace : List Event
  deriving DecidableEq, Repr

/-- Model of `wixusb_delete(kref)`: `usb_put_dev(dev->usbdev); kfree(dev)`. -/
def wixusb_delete (sys : Sys) : Sys × List Event :=
  ({ sys with deleted := sys.deleted + 1 }, [.usb_put_dev sys.dev.usbdev, .kfree_dev])

/-- Model of `kref_put(&dev->kref, wixusb_delete)`: decrement, and run the
release function when the count drops to zero. -/
def kref_put (sys : Sys) : Sys × List Event :=
  let sys1 : Sys := { sys with dev := { sys.dev with kref := sys.dev.kref - 1 } }
  if sys1.dev.kref = 0 then
    ((wixusb_delete sys1).1, Event.kref_put :: (wixusb_delete sys1).2)
  else
    (sys1, [.kref_put])

/-- Model of `wixusb_probe(interface, id)`.  `kzalloc_ok` and `register_ret`
are the answers of `kzalloc` and `usb_register_dev`.  The second component is
`none` when no session was allocated. -/
def wixusb_probe (kzalloc_ok : Bool) (register_ret : Int) (usbdev iface idProduct : Nat) :
    Int × Option Sys :=
  if !kzalloc_ok then
    (-ENOMEM, none)
  else
    let dev : usb_wixusb :=
      { usbdev := usbdev, interface := some iface, kref := 1, timeout := 0,
        open_counter := 0, idProduct := 0 }
    if register_ret ≠ 0 then
      (register_ret,
        some (kref_put { dev := dev, intfdata := false, registered := false, deleted := 0 }).1)
    else
      (0, some { dev := { dev with open_counter := 0, idProduct := idProduct },
                 intfdata := true, registered := true, deleted := 0 })

/-- The driver state after a successful `wixusb_probe`. -/
def attach (usbdev iface idProduct : Nat) : Sys :=
  { dev := { usbdev := usbdev, interface := some iface, kref := 1, timeout := 0,
             open_counter := 0, idProduct := idProduct },
    intfdata := true, registered := true, deleted := 0 }

/-- Model of `wixusb_open(inode, file)` for the minor of this session. -/
def wixusb_open (sys : Sys) : SysRet :=
  if !sys.registered then
    ⟨-ENODEV, sys, []⟩
  else if !sys.intfdata then
    ⟨-ENODEV, sys, []⟩
  else
    ⟨0, { sys with dev := { sys.dev with kref := sys.dev.kref + 1, timeout := 0 } },
      [.kref_get]⟩

/-- Model of `wixusb_release(inode, file)`; `private_data` tells whether
`file->private_data` is non-null. -/
def wixusb_release (sys : Sys) (private_data : Bool) : SysRet :=
  if !private_data then
    ⟨-ENODEV, sys, []⟩
  else
    ⟨0, (kref_put sys).1, (kref_put sys).2⟩

/-- Model of `wixusb_disconnect(interface)`. -/
def wixusb_disconnect (sys : Sys) : SysRet :=
  let sys1 : Sys :=
    { sys with intfdata := false, registered := false,
               dev := { sys.dev with interface := none } }
  ⟨0, (kref_put sys1).1, [.mutex_lock, .mutex_unlock] ++ (kref_put sys1).2⟩

/-- One operation on the channel of a session. -/
inductive Op
  | open_
  | read (env : Env) (count : Nat)
  | write (env : Env) (count : Nat)
  | ioctl (env : Env) (cmd : Nat) (arg : UserArg)
  | release
  | disconnect

/-- Run one operation. -/
def step (sys : Sys) : Op → SysRet
  | .open_ => wixusb_open sys
  | .read env count =>
      let r := wixusb_read env sys.dev count
      ⟨r.retval, { sys with dev := r.dev }, r.trace⟩
  | .write env count =>
      let r := wixusb_write env sys.dev count
      ⟨r.retval, { sys with dev := r.dev }, r.trace⟩
  | .ioctl env cmd arg =>
      let r := wixusb_ioctl env sys.dev cmd arg
      ⟨r.retval, { sys with dev := r.dev }, r.trace⟩
  | .release => wixusb_release sys true
  | .disconnect => wixusb_disconnect sys

/-- The driver state after a sequence of operations. -/
def exec (sys : Sys) : List Op → Sys
  | [] => sys
  | op :: ops => exec (step sys op).sys ops

/-- The external calls made by a sequence of operations. -/
def traceOf (sys : Sys) : List Op → List Event
  | [] => []
  | op :: ops => (step sys op).trace ++ traceOf (step sys op).sys ops

/-- Operations that write the session's timeout: open, and the
set-pipe-policy command with kind transfer-timeout. -/
def Op.setsTimeout : Op → Bool
  | .open_ => true
  | .ioctl _ cmd arg =>
      cmd = IOCTL_SET_PIPE_POL && arg.policy.policy_type = PIPE_TRANSFER_TIMEOUT
  | _ => false

/-- The set-pipe-policy command with kind transfer-timeout. -/
def Op.isTimeoutPolicy : Op → Bool
  | .ioctl _ cmd arg =>
      cmd = IOCTL_SET_PIPE_POL && arg.policy.policy_type = PIPE_TRANSFER_TIMEOUT
  | _ => false

/-- Bookkeeping of holders along a sequence: the number of open handles and
whether the disconnect has happened. -/
def track : Nat × Bool → Op → Nat × Bool
  | (h, d), .open_ => (h + 1, d)
  | (h, d), .release => (h - 1, d)
  | (h, _), .disconnect => (h, true)
  | hd, _ => hd

/-- Number of holders of the session: the open handles, plus the attach-time
hold as long as the disconnect has not happened. -/
def holders (hd : Nat × Bool) : Int := (hd.1 : Int) + (if hd.2 then 0 else 1)

/-- Valid continuations from `h` open handles and disconnect flag `d`: an open
happens before the disconnect (it succeeds), a release or an I/O call needs an
open handle, there is one disconnect, and at the end every handle is released
and the device is disconnected. -/
def validFrom : Nat → Bool → List Op → Bool
  | h, d, [] => h == 0 && d
  | h, d, .open_ :: ops => !d && validFrom (h + 1) d ops
  | h, d, .release :: ops => decide (0 < h) && validFrom (h - 1) d ops
  | h, d, .disconnect :: ops => !d && validFrom h true ops
  | h, d, _ :: ops => decide (0 < h) && validFrom h d ops

/-! ## The client facade (`winusb_wrapper.c`) -/

/-- The C constant `FALSE`. -/
def FALSE : Int := 0
/-- The C constant `TRUE`. -/
def TRUE : Int := 1
/-- Failure value of the descriptor and policy calls, `#define WINUSB_FAIL (FALSE)`. -/
def WINUSB_FAIL : Int := FALSE
/-- Success value of the descriptor and policy calls, `#define WINUSB_SUCCESS (TRUE)`. -/
def WINUSB_SUCCESS : Int := TRUE

/-- `SETUP_PACKET_IS_INPUT(bmRequestType)`: bit 7 of the request type. -/
def SETUP_PACKET_IS_INPUT (bmRequestType : Nat) : Bool := bmRequestType &&& (1 <<< 7) ≠ 0

/-- `memcpy(dst, src, n)` on byte lists: the first `n` bytes of `dst` are
replaced by the first `n` bytes of `src`. -/
def memcpy (dst src : List Nat) (n : Nat) : List Nat := src.take n ++ dst.drop n

/-- Answers of the channel to the facade.  `open_ i` is the value of `open` on
the node with index `i`; an ioctl answers with its return value and the packet
as the kernel left it; `read` and `write` answer with the value of the system
call, the `errno` it leaves, and for `read` the bytes stored in the buffer. -/
structure Chan where
  open_ : Nat → Int
  ioctl_desc : wixusb_get_desc_t → Int × wixusb_get_desc_t
  ioctl_ctrl : Nat → wixusb_ctrl_packet_t → Int × wixusb_ctrl_packet_t
  ioctl_policy : wixusb_set_pipe_policy_t → Int
  ioctl_connected : Int
  read : Nat → Int × Nat × List Nat
  write : List Nat → Nat → Int × Nat

/-- Calls made by a facade function, in order. -/
inductive Call
  | open_ (index : Nat)
  | ioctl (cmd : Nat)
  | read (len : Nat)
  | write (len : Nat)
  | memcpy_to_Buffer (n : Nat)
  | memcpy_to_packet (n : Nat)
  deriving DecidableEq, Repr

/-- Outcome of a facade function: return value, the caller's `Buffer` and
`*LengthTransferred` afterwards (`none` for a null pointer), calls made. -/
structure Out where
  ret : Int
  Buffer : List Nat
  LengthTransferred : Option Nat
  calls : List Call
  deriving DecidableEq, Repr

/-- The loop of `WinUsb_Connect`: `for (i = 0; i < 10 && fd < 0; i++)` with
the early return of the body.  `fuel` bounds the number of condition checks;
eleven are enough. -/
def WinUsb_Connect_loop (open_ : Nat → Int) : Nat → Nat → Int → List Nat → Int × List Nat
  | 0, _, fd, tried => (fd, tried)
  | fuel + 1, i, fd, tried =>
      if i < 10 ∧ fd < 0 then
        if open_ i ≥ 0 then
          (open_ i, tried ++ [i])
        else
          WinUsb_Connect_loop open_ fuel (i + 1) (open_ i) (tried ++ [i])
      else
        (fd, tried)

/-- Model of `WinUsb_Connect()`: the value returned and the node indices on
which `open` was called, in order. -/
def WinUsb_Connect (open_ : Nat → Int) : Int × List Nat :=
  WinUsb_Connect_loop open_ 11 0 (-1) []

/-- Model of `CheckConnected(deviceFd)`. -/
def CheckConnected (chan : Chan) : Bool :=
  if chan.ioctl_connected < 0 then false else true

/-- Model of `WinUsb_GetDescriptor(fd, DescriptorType, Index, LanguageID,
Buffer, BufferLength, LengthTransferred)`.  The descriptor `fd` is carried by
`chan`; the code does not use `LanguageID`. -/
def WinUsb_GetDescriptor (chan : Chan) (DescriptorType Index : Nat) (Buffer : List Nat)
    (BufferLength : Nat) (LengthTransferred : Option Nat) : Out :=
  let desc_packet : wixusb_get_desc_t :=
    { desc_type := DescriptorType, desc_idx := Index, data := List.replicate DESC_BUFF_LENGTH 0 }
  let result := (chan.ioctl_desc desc_packet).1
  let desc_packet := (chan.ioctl_desc desc_packet).2
  if result < 0 then
    ⟨WINUSB_FAIL, Buffer, LengthTransferred, [.ioctl IOCTL_GET_DESC]⟩
  else
    let n := if toU32 result < BufferLength then toU32 result else BufferLength
    ⟨WINUSB_SUCCESS, memcpy Buffer desc_packet.data n,
      LengthTransferred.map (fun _ => toU32 result),
      [.ioctl IOCTL_GET_DESC, .memcpy_to_Buffer n]⟩

/-- Model of `WinUsb_SetPipePolicy(fd, PipeID, PolicyType, ValueLength, Value)`;
`Value` is the 32-bit word `Value` points to.  The code does not use `PipeID`
and `ValueLength`; the call has no buffer and no length output. -/
def WinUsb_SetPipePolicy (chan : Chan) (PolicyType : Nat) (Value : Nat) : Out :=
  if PolicyType = SHORT_PACKET_TERMINATE ∨ PolicyType = PIPE_TRANSFER_TIMEOUT then
    let pipe_policy : wixusb_set_pipe_policy_t :=
      { policy_type := PolicyType, policy_value := Value }
    if chan.ioctl_policy pipe_policy < 0 then
      ⟨WINUSB_FAIL, [], none, [.ioctl IOCTL_SET_PIPE_POL]⟩
    else
      ⟨WINUSB_SUCCESS, [], none, [.ioctl IOCTL_SET_PIPE_POL]⟩
  else
    ⟨WINUSB_FAIL, [], none, []⟩

/-- Model of `data_receive(fd, buff, buffLen)`: the value of `read`, or
`-errno` when it is negative. -/
def data_receive (chan : Chan) (buffLen : Nat) : Int :=
  if (chan.read buffLen).1 < 0 then -((chan.read buffLen).2.1 : Int) else (chan.read buffLen).1

/-- Model of `data_send_request(fd, buff, len)`: the value of `write`, or
`-errno` when it is negative. -/
def data_send_request (chan : Chan) (buff : List Nat) (len : Nat) : Int :=
  if (chan.write buff len).1 < 0 then -((chan.write buff len).2 : Int)
  else (chan.write buff len).1

/-- Model of `data_send(fd, outBuff, outLen)`. -/
def data_send (chan : Chan) (outBuff : List Nat) (outLen : Nat) : Int :=
  data_send_request chan outBuff outLen

/-- Model of `WixUsb_ReadBulk(InterfaceHandle, Buffer, BufferLength,
LengthTransferred)`. -/
def WixUsb_ReadBulk (chan : Chan) (Buffer : List Nat) (BufferLength : Nat)
    (LengthTransferred : Option Nat) : Out :=
  if BufferLength > BULK_BUFF_LENGTH then
    ⟨-1, Buffer, LengthTransferred, []⟩
  else
    let result := data_receive chan BufferLength
    if result < 0 then
      ⟨FALSE, Buffer, LengthTransferred, [.read BufferLength]⟩
    else
      ⟨TRUE, memcpy Buffer (chan.read BufferLength).2.2 result.toNat,
        LengthTransferred.map (fun _ => toU32 result), [.read BufferLength]⟩

/-- Model of `WixUsb_BulkTransfer(InterfaceHandle, Buffer, BufferLength,
LengthTransferred)`. -/
def WixUsb_BulkTransfer (chan : Chan) (Buffer : List Nat) (BufferLength : Nat)
    (LengthTransferred : Option Nat) : Out :=
  if BufferLength > BULK_BUFF_LENGTH then
    ⟨-1, Buffer, LengthTransferred, []⟩
  else
    let result := data_send chan Buffer BufferLength
    if result < 0 then
      ⟨FALSE, Buffer, LengthTransferred, [.write BufferLength]⟩
    else
      ⟨TRUE, Buffer, LengthTransferred.map (fun _ => toU32 result), [.write BufferLength]⟩

/-- Model of `WinUsb_ControlTransfer(InterfaceHandle, SetupPacket, Buffer,
BufferLength, LengthTransferred, Overlapped)`.  The code does not use
`Overlapped`. -/
def WinUsb_ControlTransfer (chan : Chan) (SetupPacket : WINUSB_SETUP_PACKET)
    (Buffer : List Nat) (BufferLength : Nat) (LengthTransferred : Option Nat) : Out :=
  let ctrl_packet : wixusb_ctrl_packet_t :=
    { winusb_packet := SetupPacket, data := List.replicate CTRL_BUFF_LENGTH 0 }
  if BufferLength > CTRL_BUFF_LENGTH then
    ⟨FALSE, Buffer, LengthTransferred, []⟩
  else if SETUP_PACKET_IS_INPUT SetupPacket.RequestType then
    let result := (chan.ioctl_ctrl IOCTL_RECV_CTRL ctrl_packet).1
    let ctrl_packet := (chan.ioctl_ctrl IOCTL_RECV_CTRL ctrl_packet).2
    if result < 0 then
      ⟨result, Buffer, LengthTransferred, [.ioctl IOCTL_RECV_CTRL]⟩
    else
      ⟨TRUE, memcpy Buffer ctrl_packet.data result.toNat,
        LengthTransferred.map (fun _ => toU32 result),
        [.ioctl IOCTL_RECV_CTRL, .memcpy_to_Buffer result.toNat]⟩
  else
    let ctrl_packet : wixusb_ctrl_packet_t :=
      { ctrl_packet with data := memcpy ctrl_packet.data Buffer BufferLength }
    let result := (chan.ioctl_ctrl IOCTL_SEND_CTRL ctrl_packet).1
    if result < 0 then
      ⟨result, Buffer, LengthTransferred,
        [.memcpy_to_packet BufferLength, .ioctl IOCTL_SEND_CTRL]⟩
    else
      ⟨TRUE, Buffer, LengthTransferred.map (fun _ => toU32 result),
        [.memcpy_to_packet BufferLength, .ioctl IOCTL_SEND_CTRL]⟩

/-- A channel whose node 3 is the first to open (as descriptor 7) and whose
descriptor ioctl answers 18 with the bytes 1, 2, 3, ... in the packet. -/
def sampleChan : Chan :=
  { open_ := fun i => if i = 3 then 7 else -1,
    ioctl_desc := fun p => (18, { p with data := List.range' 1 128 }),
    ioctl_ctrl := fun _ p => (0, p),
    ioctl_policy := fun _ => 0,
    ioctl_connected := 0,
    read := fun _ => (0, 0, []),
    write := fun _ n => (n, 0) }

/-- A driver state with a connected, registered session, as used in examples. -/
def sampleSys (timeout : Nat) : Sys :=
  { dev := sampleDev timeout, intfdata := true, registered := true, deleted := 0 }

/-- The seven defined opcodes. -/
def definedOpcodes : List Nat :=
  [IOCTL_SEND_CTRL, IOCTL_RECV_CTRL, IOCTL_GET_DESC, IOCTL_SET_PIPE_POL, IOCTL_GET_VID_PID,
   IOCTL_IS_CONNECTED, IOCTL_WRITE_INT]

/-- What holds of the driver state while the session has holders: no teardown
yet, the reference count is the number of holders, and the interface is
registered until the disconnect. -/
def Alive (sys : Sys) (hd : Nat × Bool) : Prop :=
  sys.deleted = 0 ∧ sys.dev.kref = holders hd ∧ sys.registered = !hd.2 ∧
    sys.intfdata = !hd.2 ∧ 0 < holders hd

/-- Timeout carried by the transfer calls of a switch case. -/
def Body.usesTimeout (b : Body) (timeout : Int) : Prop :=
  ∀ e ∈ b.trace, ∀ t, e.timeoutArg = some t → t = timeout

/-- A channel on which every call fails: the system calls return `e` (negative)
and leave `errno`; buffers and packets stay as they were. -/
def failingChan (e : Int) (errno : Nat) : Chan :=
  { open_ := fun _ => e,
    ioctl_desc := fun p => (e, p),
    ioctl_ctrl := fun _ p => (e, p),
    ioctl_policy := fun _ => e,
    ioctl_connected := e,
    read := fun _ => (e, errno, []),
    write := fun _ _ => (e, errno) }

/-- A channel whose control ioctl answers `n` with the bytes 1, 2, 3, ... in
the packet's data. -/
def ctrlChan (n : Int) : Chan :=
  { sampleChan with ioctl_ctrl := fun _ p => (n, { p with data := List.range' 1 128 }) }

/-- Number of times a trace acquires the serialization lock: the calls of
`mutex_lock` and the calls of `mutex_lock_interruptible` that return 0. -/
def acquired : List Event → Nat
  | [] => 0
  | .mutex_lock :: es => 1 + acquired es
  | .mutex_lock_interruptible a :: es => (if a then 1 else 0) + acquired es
  | _ :: es => acquired es

/-- Number of times a trace releases the serialization lock. -/
def released : List Event → Nat
  | [] => 0
  | .mutex_unlock :: es => 1 + released es
  | _ :: es => released es

/-- Replay of the lock along a trace, from the state `held`.  The result is
`none` when the trace unlocks a lock that is not held or locks one that the
caller already holds, and the final state of the lock otherwise. -/
def lockReplay : Bool → List Event → Option Bool
  | held, [] => some held
  | held, .mutex_lock :: es => if held then none else lockReplay true es
  | held, .mutex_lock_interruptible a :: es =>
      if a then (if held then none else lockReplay true es) else lockReplay held es
  | held, .mutex_unlock :: es => if held then lockReplay false es else none
  | held, _ :: es => lockReplay held es

/-- Events that neither take nor release the lock. -/
def Event.lockNeutral : Event → Bool
  | .mutex_lock => false
  | .mutex_lock_interruptible _ => false
  | .mutex_unlock => false
  | _ => true

/-- Balanced use of the lock by a trace that starts with the lock free: as
many releases as acquisitions, at most one acquisition, no unlock of a lock
that is not held, and the lock free at the end. -/
def lockBalanced (trace : List Event) : Prop :=
  released trace = acquired trace ∧ acquired trace ≤ 1 ∧ lockReplay false trace = some false

/-- The transport handles released by a trace: the arguments of its
`usb_put_dev` calls, in order. -/
def putDevCalls : List Event → List Nat
  | [] => []
  | .usb_put_dev u :: es => u :: putDevCalls es
  | _ :: es => putDevCalls es

/-- Number of times a trace frees the session structure (`kfree(dev)`). -/
def devFrees : List Event → Nat
  | [] => 0
  | .kfree_dev :: es => 1 + devFrees es
  | _ :: es => devFrees es

/-- The calls of the teardown `wixusb_delete`. -/
def Event.isTeardown : Event → Bool
  | .usb_put_dev _ => true
  | .kfree_dev => true
  | _ => false

/-! ## Theorems: the ioctl dispatcher -/

theorem ioctl_switch_unknown (env : Env) (dev : usb_wixusb) (cmd : Nat) (arg : UserArg)
    (h : cmd ∉ definedOpcodes) : ioctl_switch env dev cmd arg = ⟨-ENOTTY, dev, [], false⟩ := by
  simp only [definedOpcodes, List.mem_cons, List.mem_singleton, not_or, List.not_mem_nil,
    or_false] at h
  obtain ⟨h1, h2, h3, h4, h5, h6, h7⟩ := h
  simp [ioctl_switch, h1, h2, h3, h4, h5, h6, h7]

/-- C1, as the claim states it, fails: on a session whose interface reference
is null the command value 0, which is none of the seven opcodes, is answered
with -ENODEV and not with -ENOTTY. -/
theorem C1_unknown_opcode_disconnected :
    (0 : Nat) ∉ definedOpcodes ∧
    (wixusb_ioctl (Env.const ⟨0, 0⟩) { sampleDev 0 with interface := none } 0
        (sampleArg 8)).retval = -ENODEV ∧
    (wixusb_ioctl (Env.const ⟨0, 0⟩) { sampleDev 0 with interface := none } 0
        (sampleArg 8)).retval ≠ -ENOTTY := by
  decide

/-- C1 (amended): on every connected session (interface reference not null),
for every command value that is none of the seven defined opcodes,
wixusb_ioctl returns -ENOTTY, calls no USB transfer primitive and leaves the
session as it was. -/
theorem C1_unknown_opcode_unsupported (env : Env) (dev : usb_wixusb) (cmd : Nat)
    (arg : UserArg) (hconn : dev.interface ≠ none) (hcmd : cmd ∉ definedOpcodes) :
    (wixusb_ioctl env dev cmd arg).retval = -ENOTTY ∧
    (∀ e ∈ (wixusb_ioctl env dev cmd arg).trace, e.isTransfer = false) ∧
    (wixusb_ioctl env dev cmd arg).dev = dev := by
  have hn : dev.interface.isNone = false := by
    cases h : dev.interface with
    | none => exact absurd h hconn
    | some _ => rfl
  by_cases hm : _IOC_TYPE cmd = WIXUSB_IOC_MAGIC
  · simp [wixusb_ioctl, hn, hm, ioctl_switch_unknown env dev cmd arg hcmd, Event.isTransfer]
  · simp [wixusb_ioctl, hn, hm, Event.isTransfer]

/-- Witness of C1 (amended): command value 0 on a connected session. -/
theorem C1_unknown_opcode_unsupported_witness :
    (wixusb_ioctl (Env.const ⟨0, 0⟩) (sampleDev 0) 0 (sampleArg 8)).retval = -ENOTTY ∧
    (∀ e ∈ (wixusb_ioctl (Env.const ⟨0, 0⟩) (sampleDev 0) 0 (sampleArg 8)).trace,
      e.isTransfer = false) ∧
    (wixusb_ioctl (Env.const ⟨0, 0⟩) (sampleDev 0) 0 (sampleArg 8)).dev = sampleDev 0 :=
  C1_unknown_opcode_unsupported (Env.const ⟨0, 0⟩) (sampleDev 0) 0 (sampleArg 8)
    (by decide) (by decide)


theorem isNone_eq_false_of_ne_none {α : Type} (o : Option α) (h : o ≠ none) :
    o.isNone = false := by
  cases o with
  | none => exact absurd rfl h
  | some _ => rfl

theorem toU64_of_nonneg_le (x : Int) (L : Nat) (h0 : 0 ≤ x) (hL : x ≤ L) : toU64 x ≤ L := by
  unfold toU64
  omega

/-- Receive-control copies back at most the declared length when the transport
answers with a count of at most that length. -/
theorem recv_ctrl_copied_le_length (env : Env) (dev : usb_wixusb) (arg : UserArg)
    (hconn : dev.interface ≠ none)
    (hret : (env.usb 0).ret ≤ arg.ctrl.winusb_packet.Length) :
    copiedTo .ctrl_data (wixusb_ioctl env dev IOCTL_RECV_CTRL arg).trace
      ≤ arg.ctrl.winusb_packet.Length := by
  have hn := isNone_eq_false_of_ne_none _ hconn
  have hm : _IOC_TYPE IOCTL_RECV_CTRL = WIXUSB_IOC_MAGIC := by decide
  have hc : IOCTL_RECV_CTRL ≠ IOCTL_SEND_CTRL := by decide
  simp only [wixusb_ioctl, hn, hm, ioctl_switch, hc, ioctl_recv_ctrl]
  by_cases hk : env.kmalloc_ok <;> by_cases hf : env.copy_from_user_ok <;>
    by_cases hneg : (env.usb 0).ret < 0 <;> by_cases ht : env.copy_to_user_ok <;>
    simp [hk, hf, hneg, ht, copiedTo] <;>
    exact toU64_of_nonneg_le _ _ (by omega) hret

/-- Send-control makes no copy to user space at all. -/
theorem send_ctrl_copies_nothing (env : Env) (dev : usb_wixusb) (arg : UserArg) :
    ∀ e ∈ (wixusb_ioctl env dev IOCTL_SEND_CTRL arg).trace, ∀ d n, e ≠ .copy_to_user d n := by
  have hm : _IOC_TYPE IOCTL_SEND_CTRL = WIXUSB_IOC_MAGIC := by decide
  simp only [wixusb_ioctl, hm, ioctl_switch, ioctl_send_ctrl]
  by_cases hi : dev.interface.isNone <;> by_cases hk : env.kmalloc_ok <;>
    by_cases hf : env.copy_from_user_ok <;> simp [hi, hk, hf]

/-- C2: evaluation at the failing input.  A receive-control packet declares
Length 200 and the transport answers 200 (at most the declared length); the
driver copies 200 bytes back from the 128-byte inline buffer, more than
min(200, 128). -/
theorem C2_recv_ctrl_copies_past_capacity :
    (wixusb_ioctl (Env.const ⟨200, 0⟩) (sampleDev 0) IOCTL_RECV_CTRL (sampleArg 200)).retval
      = 200 ∧
    copiedTo .ctrl_data
      (wixusb_ioctl (Env.const ⟨200, 0⟩) (sampleDev 0) IOCTL_RECV_CTRL (sampleArg 200)).trace
      = 200 ∧
    ¬ (copiedTo .ctrl_data
      (wixusb_ioctl (Env.const ⟨200, 0⟩) (sampleDev 0) IOCTL_RECV_CTRL (sampleArg 200)).trace
      ≤ min 200 CTRL_BUFF_LENGTH) := by
  decide

/-- C3: evaluation at the failing inputs.  A send-control packet with Length
200 (capacity 128) reaches usb_control_msg with size 200 and the call returns
the transport's answer; an interrupt-write packet with length 100 (capacity
64) reaches usb_interrupt_msg with len 100 and the call returns 0. -/
theorem C3_oversized_packets_are_forwarded :
    wixusb_ioctl (Env.const ⟨200, 0⟩) (sampleDev 7) IOCTL_SEND_CTRL (sampleArg 200) =
      ⟨200, sampleDev 7,
        [.mutex_lock, .kmalloc 136 true, .copy_from_user 136,
         .usb_control_msg .snd_ctrl 6 0x80 0 0 200 7, .mutex_unlock, .kfree]⟩ ∧
    wixusb_ioctl (Env.const ⟨0, 100⟩) (sampleDev 7) IOCTL_WRITE_INT (sampleArg 200) =
      ⟨0, sampleDev 7,
        [.mutex_lock, .kmalloc 65 true, .copy_from_user 65,
         .usb_interrupt_msg .int_out 100 7, .mutex_unlock, .kfree]⟩ := by
  decide

/-! ## Theorems: disconnected sessions -/

/-- C4: on a session whose interface reference is null, whatever its reference
count, wixusb_ioctl with any command, wixusb_write with a non-zero count and
wixusb_read with a non-zero count that acquires the lock (its interruptible
wait is not interrupted) return -ENODEV, call no USB transfer primitive and
leave the session unchanged. -/
theorem C4_null_interface_no_device (env : Env) (dev : usb_wixusb)
    (hnull : dev.interface = none) :
    (∀ cmd arg,
      (wixusb_ioctl env dev cmd arg).retval = -ENODEV ∧
      (∀ e ∈ (wixusb_ioctl env dev cmd arg).trace, e.isTransfer = false) ∧
      (wixusb_ioctl env dev cmd arg).dev = dev) ∧
    (∀ count, count ≠ 0 → env.lock_interrupted = false →
      (wixusb_read env dev count).retval = -ENODEV ∧
      (∀ e ∈ (wixusb_read env dev count).trace, e.isTransfer = false) ∧
      (wixusb_read env dev count).dev = dev) ∧
    (∀ count, count ≠ 0 →
      (wixusb_write env dev count).retval = -ENODEV ∧
      (∀ e ∈ (wixusb_write env dev count).trace, e.isTransfer = false) ∧
      (wixusb_write env dev count).dev = dev) := by
  refine ⟨?_, ?_, ?_⟩
  · intro cmd arg
    simp [wixusb_ioctl, hnull, Event.isTransfer]
  · intro count hc hl
    simp [wixusb_read, hnull, hc, hl, Event.isTransfer]
  · intro count hc
    simp [wixusb_write, hnull, hc, Event.isTransfer]

/-- Witness of C4: a disconnected session still held by two references. -/
theorem C4_null_interface_no_device_witness :
    (wixusb_ioctl (Env.const ⟨0, 0⟩) { sampleDev 5 with interface := none } IOCTL_SEND_CTRL
        (sampleArg 8)).retval = -ENODEV ∧
    (wixusb_read (Env.const ⟨0, 0⟩) { sampleDev 5 with interface := none } 16).retval
      = -ENODEV ∧
    (wixusb_write (Env.const ⟨0, 0⟩) { sampleDev 5 with interface := none } 16).retval
      = -ENODEV :=
  have h := C4_null_interface_no_device (Env.const ⟨0, 0⟩)
    { sampleDev 5 with interface := none } rfl
  ⟨(h.1 IOCTL_SEND_CTRL (sampleArg 8)).1, (h.2.1 16 (by decide) rfl).1,
    (h.2.2 16 (by decide)).1⟩

/-! ## Theorems: bulk write -/

theorem wixusb_read_dev (env : Env) (dev : usb_wixusb) (count : Nat) :
    (wixusb_read env dev count).dev = dev := by
  unfold wixusb_read
  simp only []
  split_ifs <;> rfl

theorem wixusb_write_dev (env : Env) (dev : usb_wixusb) (count : Nat) :
    (wixusb_write env dev count).dev = dev := by
  unfold wixusb_write
  simp only []
  split_ifs <;> rfl

theorem ioctl_send_ctrl_dev (env : Env) (dev : usb_wixusb) (arg : UserArg) :
    (ioctl_send_ctrl env dev arg).dev = dev := by
  unfold ioctl_send_ctrl
  split_ifs <;> rfl

theorem ioctl_recv_ctrl_dev (env : Env) (dev : usb_wixusb) (arg : UserArg) :
    (ioctl_recv_ctrl env dev arg).dev = dev := by
  unfold ioctl_recv_ctrl
  simp only []
  split_ifs <;> rfl

theorem ioctl_get_desc_dev (env : Env) (dev : usb_wixusb) (arg : UserArg) :
    (ioctl_get_desc env dev arg).dev = dev := by
  unfold ioctl_get_desc
  simp only []
  split_ifs <;> rfl

theorem ioctl_get_vid_pid_dev (env : Env) (dev : usb_wixusb) :
    (ioctl_get_vid_pid env dev).dev = dev := by
  unfold ioctl_get_vid_pid
  split_ifs <;> rfl

theorem ioctl_write_int_dev (env : Env) (dev : usb_wixusb) (arg : UserArg) :
    (ioctl_write_int env dev arg).dev = dev := by
  unfold ioctl_write_int
  split_ifs <;> rfl

theorem ioctl_set_pipe_pol_dev (env : Env) (dev : usb_wixusb) (arg : UserArg)
    (h : arg.policy.policy_type ≠ PIPE_TRANSFER_TIMEOUT) :
    (ioctl_set_pipe_pol env dev arg).dev = dev := by
  unfold ioctl_set_pipe_pol
  simp only []
  split_ifs <;> rfl

theorem ioctl_set_pipe_pol_fields (env : Env) (dev : usb_wixusb) (arg : UserArg) :
    (ioctl_set_pipe_pol env dev arg).dev
      = { dev with timeout := (ioctl_set_pipe_pol env dev arg).dev.timeout } := by
  unfold ioctl_set_pipe_pol
  simp only []
  split_ifs <;> rfl

/-- The switch leaves the session alone unless the command is the
set-pipe-policy command with kind transfer-timeout. -/
theorem ioctl_switch_dev (env : Env) (dev : usb_wixusb) (cmd : Nat) (arg : UserArg)
    (h : ¬ (cmd = IOCTL_SET_PIPE_POL ∧ arg.policy.policy_type = PIPE_TRANSFER_TIMEOUT)) :
    (ioctl_switch env dev cmd arg).dev = dev := by
  unfold ioctl_switch
  split_ifs with h1 h2 h3 h4 h5 h6 h7
  · exact ioctl_send_ctrl_dev env dev arg
  · exact ioctl_recv_ctrl_dev env dev arg
  · exact ioctl_get_desc_dev env dev arg
  · exact ioctl_set_pipe_pol_dev env dev arg (fun ht => h ⟨h4, ht⟩)
  · exact ioctl_get_vid_pid_dev env dev
  · rfl
  · exact ioctl_write_int_dev env dev arg
  · rfl

/-- The switch changes no field of the session but the timeout. -/
theorem ioctl_switch_fields (env : Env) (dev : usb_wixusb) (cmd : Nat) (arg : UserArg) :
    (ioctl_switch env dev cmd arg).dev
      = { dev with timeout := (ioctl_switch env dev cmd arg).dev.timeout } := by
  by_cases h : cmd = IOCTL_SET_PIPE_POL ∧ arg.policy.policy_type = PIPE_TRANSFER_TIMEOUT
  · have h3 : IOCTL_SET_PIPE_POL ≠ IOCTL_SEND_CTRL := by decide
    have h4 : IOCTL_SET_PIPE_POL ≠ IOCTL_RECV_CTRL := by decide
    have h5 : IOCTL_SET_PIPE_POL ≠ IOCTL_GET_DESC := by decide
    have e : ioctl_switch env dev cmd arg = ioctl_set_pipe_pol env dev arg := by
      simp [ioctl_switch, h.1, h3, h4, h5]
    rw [e]
    exact ioctl_set_pipe_pol_fields env dev arg
  · rw [ioctl_switch_dev env dev cmd arg h]

/-- The ioctl entry leaves the session alone unless it is the set-pipe-policy
command with kind transfer-timeout. -/
theorem wixusb_ioctl_dev (env : Env) (dev : usb_wixusb) (cmd : Nat) (arg : UserArg)
    (h : ¬ (cmd = IOCTL_SET_PIPE_POL ∧ arg.policy.policy_type = PIPE_TRANSFER_TIMEOUT)) :
    (wixusb_ioctl env dev cmd arg).dev = dev := by
  unfold wixusb_ioctl
  simp only []
  split_ifs <;> first | rfl | exact ioctl_switch_dev env dev cmd arg h

/-- The ioctl entry changes no field of the session but the timeout. -/
theorem wixusb_ioctl_fields (env : Env) (dev : usb_wixusb) (cmd : Nat) (arg : UserArg) :
    (wixusb_ioctl env dev cmd arg).dev
      = { dev with timeout := (wixusb_ioctl env dev cmd arg).dev.timeout } := by
  unfold wixusb_ioctl
  simp only []
  split_ifs <;> first | rfl | exact ioctl_switch_fields env dev cmd arg

theorem wixusb_ioctl_timeout (env : Env) (dev : usb_wixusb) (cmd : Nat) (arg : UserArg)
    (h : ¬ (cmd = IOCTL_SET_PIPE_POL ∧ arg.policy.policy_type = PIPE_TRANSFER_TIMEOUT)) :
    (wixusb_ioctl env dev cmd arg).dev.timeout = dev.timeout := by
  rw [wixusb_ioctl_dev env dev cmd arg h]

theorem kref_put_timeout (sys : Sys) : (kref_put sys).1.dev.timeout = sys.dev.timeout := by
  unfold kref_put wixusb_delete
  simp only []
  split_ifs <;> rfl

/-- Every operation that is neither an open nor a transfer-timeout policy
command leaves the timeout as it was. -/
theorem step_timeout (sys : Sys) (op : Op) (h : op.setsTimeout = false) :
    (step sys op).sys.dev.timeout = sys.dev.timeout := by
  cases op with
  | open_ => simp [Op.setsTimeout] at h
  | read env count => simp [step, wixusb_read_dev]
  | write env count => simp [step, wixusb_write_dev]
  | ioctl env cmd arg =>
      simp only [Op.setsTimeout, Bool.and_eq_false_iff, decide_eq_false_iff_not] at h
      simp only [step]
      exact wixusb_ioctl_timeout env sys.dev cmd arg (by tauto)
  | release => simp [step, wixusb_release, kref_put_timeout]
  | disconnect => simp [step, wixusb_disconnect, kref_put_timeout]

theorem wixusb_read_trace_timeout (env : Env) (dev : usb_wixusb) (count : Nat) :
    ∀ e ∈ (wixusb_read env dev count).trace, ∀ t,
      e.timeoutArg = some t → t = toInt32 dev.timeout := by
  unfold wixusb_read
  simp only []
  split_ifs <;> simp [Event.timeoutArg]

theorem wixusb_write_trace_timeout (env : Env) (dev : usb_wixusb) (count : Nat) :
    ∀ e ∈ (wixusb_write env dev count).trace, ∀ t,
      e.timeoutArg = some t → t = toInt32 dev.timeout := by
  unfold wixusb_write
  simp only []
  split_ifs <;> simp [Event.timeoutArg]

theorem ioctl_switch_trace_timeout (env : Env) (dev : usb_wixusb) (cmd : Nat) (arg : UserArg) :
    (ioctl_switch env dev cmd arg).usesTimeout (toInt32 dev.timeout) := by
  unfold ioctl_switch Body.usesTimeout
  split_ifs
  · unfold ioctl_send_ctrl
    split_ifs <;> simp [Event.timeoutArg]
  · unfold ioctl_recv_ctrl
    simp only []
    split_ifs <;> simp [Event.timeoutArg]
  · unfold ioctl_get_desc
    simp only []
    split_ifs <;> simp [Event.timeoutArg]
  · unfold ioctl_set_pipe_pol
    simp only []
    split_ifs <;> simp [Event.timeoutArg]
  · unfold ioctl_get_vid_pid
    split_ifs <;> simp [Event.timeoutArg]
  · simp
  · unfold ioctl_write_int
    split_ifs <;> simp [Event.timeoutArg]
  · simp

/-- The calls of the ioctl entry are the lock, the unlock, the release of the
scratch buffer and the calls of the switch. -/
theorem wixusb_ioctl_trace_mem (env : Env) (dev : usb_wixusb) (cmd : Nat) (arg : UserArg) :
    ∀ e ∈ (wixusb_ioctl env dev cmd arg).trace,
      e = .mutex_lock ∨ e = .mutex_unlock ∨ e = .kfree ∨
        e ∈ (ioctl_switch env dev cmd arg).trace := by
  intro e he
  unfold wixusb_ioctl at he
  simp only [] at he
  split_ifs at he <;>
    simp only [List.mem_append, List.mem_cons, List.mem_singleton, List.not_mem_nil,
      or_false, false_or] at he <;>
    tauto

theorem wixusb_ioctl_trace_timeout (env : Env) (dev : usb_wixusb) (cmd : Nat) (arg : UserArg) :
    ∀ e ∈ (wixusb_ioctl env dev cmd arg).trace, ∀ t,
      e.timeoutArg = some t → t = toInt32 dev.timeout := by
  intro e he t ht
  rcases wixusb_ioctl_trace_mem env dev cmd arg e he with rfl | rfl | rfl | h
  · simp [Event.timeoutArg] at ht
  · simp [Event.timeoutArg] at ht
  · simp [Event.timeoutArg] at ht
  · exact ioctl_switch_trace_timeout env dev cmd arg e h t ht

theorem kref_put_trace_timeout (sys : Sys) :
    ∀ e ∈ (kref_put sys).2, e.timeoutArg = none := by
  unfold kref_put wixusb_delete
  simp only []
  split_ifs <;> simp [Event.timeoutArg]

/-- Every transfer call made by one operation carries the timeout the session
had when the operation started. -/
theorem step_trace_timeout (sys : Sys) (op : Op) :
    ∀ e ∈ (step sys op).trace, ∀ t,
      e.timeoutArg = some t → t = toInt32 sys.dev.timeout := by
  cases op with
  | open_ =>
      unfold step wixusb_open
      simp only []
      split_ifs <;> simp [Event.timeoutArg]
  | read env count => exact wixusb_read_trace_timeout env sys.dev count
  | write env count => exact wixusb_write_trace_timeout env sys.dev count
  | ioctl env cmd arg => exact wixusb_ioctl_trace_timeout env sys.dev cmd arg
  | release =>
      intro e he t ht
      simp only [step, wixusb_release, Bool.not_true, Bool.false_eq_true, if_false] at he
      rw [kref_put_trace_timeout sys e he] at ht
      exact absurd ht (by simp)
  | disconnect =>
      intro e he t ht
      simp only [step, wixusb_disconnect, List.mem_append, List.mem_cons, List.mem_singleton,
        List.not_mem_nil, or_false] at he
      rcases he with (rfl | rfl) | he
      · simp [Event.timeoutArg] at ht
      · simp [Event.timeoutArg] at ht
      · rw [kref_put_trace_timeout _ e he] at ht
        exact absurd ht (by simp)

/-- Along a sequence without opens and transfer-timeout policy commands, every
transfer call carries the timeout the session had at the start. -/
theorem traceOf_timeout (ops : List Op) :
    ∀ sys : Sys, (∀ op ∈ ops, op.setsTimeout = false) →
      ∀ e ∈ traceOf sys ops, ∀ t, e.timeoutArg = some t → t = toInt32 sys.dev.timeout := by
  induction ops with
  | nil => intro sys _ e he; simp [traceOf] at he
  | cons op ops ih =>
      intro sys hops e he t ht
      have hop := hops op (List.mem_cons_self _ _)
      simp only [traceOf, List.mem_append] at he
      rcases he with he | he
      · exact step_trace_timeout sys op e he t ht
      · have := ih (step sys op).sys (fun o ho => hops o (List.mem_cons_of_mem _ ho)) e he t ht
        rw [this, step_timeout sys op hop]


/-- A set-pipe-policy command with kind transfer-timeout that returns 0 ran on
a connected session and stored the packet's value as the timeout. -/
theorem set_timeout_policy_ok (env : Env) (dev : usb_wixusb) (arg : UserArg)
    (hkind : arg.policy.policy_type = PIPE_TRANSFER_TIMEOUT)
    (hok : (wixusb_ioctl env dev IOCTL_SET_PIPE_POL arg).retval = 0) :
    dev.interface ≠ none ∧
    (wixusb_ioctl env dev IOCTL_SET_PIPE_POL arg).dev
      = { dev with timeout := arg.policy.policy_value % 2 ^ 32 } := by
  have hm : _IOC_TYPE IOCTL_SET_PIPE_POL = WIXUSB_IOC_MAGIC := by decide
  have h3 : IOCTL_SET_PIPE_POL ≠ IOCTL_SEND_CTRL := by decide
  have h4 : IOCTL_SET_PIPE_POL ≠ IOCTL_RECV_CTRL := by decide
  have h5 : IOCTL_SET_PIPE_POL ≠ IOCTL_GET_DESC := by decide
  have hs : PIPE_TRANSFER_TIMEOUT ≠ SHORT_PACKET_TERMINATE := by decide
  cases hi : dev.interface with
  | none =>
      simp [wixusb_ioctl, hi, ENODEV] at hok
  | some i =>
      refine ⟨by simp, ?_⟩
      by_cases hk : env.kmalloc_ok
      · by_cases hf : env.copy_from_user_ok
        · simp [wixusb_ioctl, hi, hm, ioctl_switch, h3, h4, h5, ioctl_set_pipe_pol, hk, hf,
            hkind, hs]
        · simp [wixusb_ioctl, hi, hm, ioctl_switch, h3, h4, h5, ioctl_set_pipe_pol, hk, hf,
            EFAULT] at hok
      · simp [wixusb_ioctl, hi, hm, ioctl_switch, h3, h4, h5, ioctl_set_pipe_pol, hk,
          ENOMEM] at hok

theorem toInt32_of_small (v : Nat) (h : v < 2 ^ 31) : toInt32 (v : Int) = v := by
  unfold toInt32
  omega

theorem toInt32_of_large (v : Nat) (h1 : 2 ^ 31 ≤ v) (h2 : v < 2 ^ 32) :
    toInt32 (v : Int) = (v : Int) - 2 ^ 32 := by
  unfold toInt32
  omega

/-- C8, as the claim states it, fails in three ways.  After the timeout is set
to 500, an open of the same session, which is no transfer-timeout policy
command, resets it, and the send-control transfer that follows is issued with
timeout 0.  After the timeout is set to the 32-bit value 4294967295, the
send-control transfer that follows hands -1 to usb_control_msg, whose timeout
parameter is an int.  After the timeout is set to 500, a get-descriptor command
issues its transfer through usb_get_descriptor, which takes no timeout. -/
theorem C8_timeout_not_passed_as_set :
    ((step (sampleSys 0) (.ioctl (Env.const ⟨0, 0⟩) IOCTL_SET_PIPE_POL (sampleArg 8))).retval = 0 ∧
      (step (sampleSys 0)
        (.ioctl (Env.const ⟨0, 0⟩) IOCTL_SET_PIPE_POL (sampleArg 8))).sys.dev.timeout = 500 ∧
      (∀ op ∈ [Op.open_, Op.ioctl (Env.const ⟨0, 0⟩) IOCTL_SEND_CTRL (sampleArg 8)],
        op.isTimeoutPolicy = false) ∧
      traceOf
        (step (sampleSys 0) (.ioctl (Env.const ⟨0, 0⟩) IOCTL_SET_PIPE_POL (sampleArg 8))).sys
        [Op.open_, Op.ioctl (Env.const ⟨0, 0⟩) IOCTL_SEND_CTRL (sampleArg 8)]
        = [.kref_get, .mutex_lock, .kmalloc 136 true, .copy_from_user 136,
           .usb_control_msg .snd_ctrl 6 0x80 0 0 8 0, .mutex_unlock, .kfree]) ∧
    ((step (sampleSys 0) (.ioctl (Env.const ⟨0, 0⟩) IOCTL_SET_PIPE_POL
        { sampleArg 8 with policy := ⟨PIPE_TRANSFER_TIMEOUT, 4294967295⟩ })).retval = 0 ∧
      (step (sampleSys 0) (.ioctl (Env.const ⟨0, 0⟩) IOCTL_SET_PIPE_POL
        { sampleArg 8 with policy := ⟨PIPE_TRANSFER_TIMEOUT, 4294967295⟩ })).sys.dev.timeout
        = 4294967295 ∧
      traceOf
        (step (sampleSys 0) (.ioctl (Env.const ⟨0, 0⟩) IOCTL_SET_PIPE_POL
          { sampleArg 8 with policy := ⟨PIPE_TRANSFER_TIMEOUT, 4294967295⟩ })).sys
        [Op.ioctl (Env.const ⟨0, 0⟩) IOCTL_SEND_CTRL (sampleArg 8)]
        = [.mutex_lock, .kmalloc 136 true, .copy_from_user 136,
           .usb_control_msg .snd_ctrl 6 0x80 0 0 8 (-1), .mutex_unlock, .kfree]) ∧
    (traceOf
        (step (sampleSys 0) (.ioctl (Env.const ⟨0, 0⟩) IOCTL_SET_PIPE_POL (sampleArg 8))).sys
        [Op.ioctl (Env.const ⟨0, 0⟩) IOCTL_GET_DESC (sampleArg 8)]
        = [.mutex_lock, .kmalloc 136 true, .copy_from_user 136,
           .usb_get_descriptor 1 0 128, .copy_to_user .desc_data 0, .mutex_unlock, .kfree] ∧
      (Event.usb_get_descriptor 1 0 128).isTransfer = true ∧
      (Event.usb_get_descriptor 1 0 128).timeoutArg = none) := by
  decide

/-- C8 (amended): after a set-pipe-policy command with kind transfer-timeout
and a 32-bit value v has returned 0, a send-control command that reaches the
transport calls usb_control_msg with v converted to int as its timeout, and
along every later sequence of operations that contains neither an open nor
another transfer-timeout policy command, every control, bulk and interrupt
transfer call carries that same timeout.  The converted value is v itself when
v < 2^31 and v - 2^32 otherwise. -/
theorem C8_timeout_policy_persists (env : Env) (sys : Sys) (arg : UserArg) (v : Nat)
    (hv : v < 2 ^ 32) (hkind : arg.policy.policy_type = PIPE_TRANSFER_TIMEOUT)
    (hval : arg.policy.policy_value = v)
    (hok : (step sys (.ioctl env IOCTL_SET_PIPE_POL arg)).retval = 0) :
    (∀ (env2 : Env) (arg2 : UserArg), env2.kmalloc_ok = true → env2.copy_from_user_ok = true →
      Event.usb_control_msg .snd_ctrl arg2.ctrl.winusb_packet.Request
          arg2.ctrl.winusb_packet.RequestType arg2.ctrl.winusb_packet.Value
          arg2.ctrl.winusb_packet.Index arg2.ctrl.winusb_packet.Length (toInt32 v)
        ∈ (step (step sys (.ioctl env IOCTL_SET_PIPE_POL arg)).sys
            (.ioctl env2 IOCTL_SEND_CTRL arg2)).trace) ∧
    (∀ ops : List Op, (∀ op ∈ ops, op.setsTimeout = false) →
      ∀ e ∈ traceOf (step sys (.ioctl env IOCTL_SET_PIPE_POL arg)).sys ops,
        ∀ t, e.timeoutArg = some t → t = toInt32 v) ∧
    (v < 2 ^ 31 → toInt32 (v : Int) = v) ∧
    (2 ^ 31 ≤ v → toInt32 (v : Int) = (v : Int) - 2 ^ 32) := by
  have hset := set_timeout_policy_ok env sys.dev arg hkind hok
  have hmod : arg.policy.policy_value % 2 ^ 32 = v := by
    rw [hval]; exact Nat.mod_eq_of_lt hv
  have hdev : (wixusb_ioctl env sys.dev IOCTL_SET_PIPE_POL arg).dev
      = { sys.dev with timeout := v } := by
    rw [hset.2, hmod]
  have hto : (step sys (.ioctl env IOCTL_SET_PIPE_POL arg)).sys.dev.timeout = v := by
    simp only [step]
    rw [hdev]
  refine ⟨?_, ?_, toInt32_of_small v, fun h => toInt32_of_large v h hv⟩
  · intro env2 arg2 hk hf
    have hn := isNone_eq_false_of_ne_none _ hset.1
    have hm : _IOC_TYPE IOCTL_SEND_CTRL = WIXUSB_IOC_MAGIC := by decide
    simp only [step]
    rw [hdev]
    simp [wixusb_ioctl, hn, hm, ioctl_switch, ioctl_send_ctrl, hk, hf]
  · intro ops hops e he t ht
    rw [traceOf_timeout ops _ hops e he t ht, hto]

/-- Witness of C8 (amended): v = 500, which every later transfer call carries
unchanged. -/
theorem C8_timeout_policy_persists_witness :
    (∀ (env2 : Env) (arg2 : UserArg), env2.kmalloc_ok = true → env2.copy_from_user_ok = true →
      Event.usb_control_msg .snd_ctrl arg2.ctrl.winusb_packet.Request
          arg2.ctrl.winusb_packet.RequestType arg2.ctrl.winusb_packet.Value
          arg2.ctrl.winusb_packet.Index arg2.ctrl.winusb_packet.Length 500
        ∈ (step (step (sampleSys 0)
              (.ioctl (Env.const ⟨0, 0⟩) IOCTL_SET_PIPE_POL (sampleArg 8))).sys
            (.ioctl env2 IOCTL_SEND_CTRL arg2)).trace) ∧
    (∀ ops : List Op, (∀ op ∈ ops, op.setsTimeout = false) →
      ∀ e ∈ traceOf (step (sampleSys 0)
          (.ioctl (Env.const ⟨0, 0⟩) IOCTL_SET_PIPE_POL (sampleArg 8))).sys ops,
        ∀ t, e.timeoutArg = some t → t = 500) :=
  have h := C8_timeout_policy_persists (Env.const ⟨0, 0⟩) (sampleSys 0) (sampleArg 8) 500
    (by decide) rfl rfl (by decide)
  ⟨h.1, h.2.1⟩

/-- C9, as the claim states it, fails: an open of a session whose timeout is
500 succeeds and leaves the timeout at 0. -/
theorem C9_open_resets_timeout :
    (step (sampleSys 500) Op.open_).retval = 0 ∧
    (sampleSys 500).dev.timeout = 500 ∧
    (step (sampleSys 500) Op.open_).sys.dev.timeout = 0 := by
  decide

/-- C9 (amended): the timeout is written only by the set-pipe-policy command
with kind transfer-timeout and by a successful open, which resets it to zero.
Read, write, release, disconnect and every ioctl that is not a set-pipe-policy
command with kind transfer-timeout leave it unchanged, and so does an open
that fails. -/
theorem C9_timeout_written_only_by_policy_and_open (sys : Sys) (op : Op) :
    (op.setsTimeout = false → (step sys op).sys.dev.timeout = sys.dev.timeout) ∧
    ((step sys Op.open_).retval = 0 → (step sys Op.open_).sys.dev.timeout = 0) ∧
    ((step sys Op.open_).retval ≠ 0 → (step sys Op.open_).sys.dev.timeout = sys.dev.timeout) := by
  refine ⟨step_timeout sys op, ?_, ?_⟩
  · unfold step wixusb_open
    split_ifs <;> simp [ENODEV]
  · unfold step wixusb_open
    split_ifs <;> simp

/-- Witness of C9 (amended): a 16-byte read on a session with timeout 500. -/
theorem C9_timeout_written_only_by_policy_and_open_witness :
    (step (sampleSys 500) (.read (Env.const ⟨0, 16⟩) 16)).sys.dev.timeout = 500 ∧
    (step (sampleSys 500) Op.open_).sys.dev.timeout = 0 :=
  ⟨(C9_timeout_written_only_by_policy_and_open (sampleSys 500)
      (.read (Env.const ⟨0, 16⟩) 16)).1 rfl,
   (C9_timeout_written_only_by_policy_and_open (sampleSys 500)
      (.read (Env.const ⟨0, 16⟩) 16)).2.1 (by decide)⟩


/-! ## Theorems: session lifetime -/

theorem validFrom_cons (h : Nat) (d : Bool) (op : Op) (ops : List Op)
    (hv : validFrom h d (op :: ops) = true) :
    validFrom (track (h, d) op).1 (track (h, d) op).2 ops = true := by
  cases op <;> simp only [validFrom, Bool.and_eq_true, Bool.not_eq_true'] at hv <;>
    first
    | (obtain ⟨hd, hr⟩ := hv; subst hd; exact hr)
    | exact hv.2

theorem validFrom_dead (ops : List Op) (hv : validFrom 0 true ops = true) : ops = [] := by
  cases ops with
  | nil => rfl
  | cons op ops => cases op <;> simp [validFrom] at hv

/-- One valid operation keeps the session alive with the holders updated, or
it is the decrement that takes the last hold and runs the teardown once. -/
theorem step_alive_or_last (sys : Sys) (h : Nat) (d : Bool) (op : Op) (ops : List Op)
    (ha : Alive sys (h, d)) (hv : validFrom h d (op :: ops) = true) :
    Alive (step sys op).sys (track (h, d) op) ∨
    ((step sys op).sys.deleted = 1 ∧ (step sys op).sys.dev.kref = 0 ∧
      track (h, d) op = (0, true)) := by
  obtain ⟨hdel, hk, hreg, hintf, hpos⟩ := ha
  simp only [holders] at hk hpos
  cases op with
  | open_ =>
      simp only [validFrom, Bool.and_eq_true, Bool.not_eq_true'] at hv
      obtain ⟨hd, -⟩ := hv
      subst hd
      left
      simp only [Bool.not_false] at hreg hintf
      simp only [step, wixusb_open, hreg, hintf, Bool.not_true, Bool.false_eq_true, if_false,
        track, Alive, holders, hdel, hk]
      refine ⟨trivial, ?_, rfl, rfl, ?_⟩
      · simp
      · simp
        omega
  | read env count =>
      simp only [validFrom, Bool.and_eq_true, decide_eq_true_eq] at hv
      left
      simp only [step, wixusb_read_dev, track, Alive, holders]
      exact ⟨hdel, hk, hreg, hintf, hpos⟩
  | write env count =>
      simp only [validFrom, Bool.and_eq_true, decide_eq_true_eq] at hv
      left
      simp only [step, wixusb_write_dev, track, Alive, holders]
      exact ⟨hdel, hk, hreg, hintf, hpos⟩
  | ioctl env cmd arg =>
      simp only [validFrom, Bool.and_eq_true, decide_eq_true_eq] at hv
      left
      simp only [step, track, Alive, holders]
      rw [wixusb_ioctl_fields env sys.dev cmd arg]
      exact ⟨hdel, hk, hreg, hintf, hpos⟩
  | release =>
      simp only [validFrom, Bool.and_eq_true, decide_eq_true_eq] at hv
      obtain ⟨hh, -⟩ := hv
      by_cases hlast : sys.dev.kref - 1 = 0
      · right
        simp only [step, wixusb_release, kref_put, wixusb_delete, Bool.not_true,
          Bool.false_eq_true, if_false, hlast, if_true, hdel, track]
        refine ⟨trivial, trivial, ?_⟩
        cases d <;> simp at hk ⊢ <;> omega
      · left
        simp only [step, wixusb_release, kref_put, wixusb_delete, Bool.not_true,
          Bool.false_eq_true, if_false, hlast, track, Alive, holders]
        refine ⟨hdel, ?_, hreg, hintf, ?_⟩ <;> cases d <;> simp at hk hpos ⊢ <;> omega
  | disconnect =>
      simp only [validFrom, Bool.and_eq_true, Bool.not_eq_true'] at hv
      obtain ⟨hd, -⟩ := hv
      subst hd
      simp only [Bool.false_eq_true, if_false] at hk hpos
      by_cases hlast : sys.dev.kref - 1 = 0
      · right
        simp only [step, wixusb_disconnect, kref_put, wixusb_delete, hlast, if_true, hdel,
          track]
        refine ⟨trivial, trivial, ?_⟩
        simp
        omega
      · left
        simp only [step, wixusb_disconnect, kref_put, wixusb_delete, hlast, if_false, track,
          Alive, holders]
        refine ⟨hdel, ?_, rfl, rfl, ?_⟩ <;> simp <;> omega

/-- Along a valid sequence started with holders, the teardown has not run and
the reference count is the number of holders after every proper initial part,
and after the whole sequence the teardown has run once and the count is zero. -/
theorem lifecycle_aux (ops : List Op) :
    ∀ (sys : Sys) (h : Nat) (d : Bool), Alive sys (h, d) → validFrom h d ops = true →
      (exec sys ops).deleted = 1 ∧ (exec sys ops).dev.kref = 0 ∧
      ∀ pre suf, ops = pre ++ suf → suf ≠ [] →
        (exec sys pre).deleted = 0 ∧
        (exec sys pre).dev.kref = holders (pre.foldl track (h, d)) ∧
        0 < holders (pre.foldl track (h, d)) := by
  induction ops with
  | nil =>
      intro sys h d ha hv
      obtain ⟨-, -, -, -, hpos⟩ := ha
      simp only [validFrom, Bool.and_eq_true, beq_iff_eq] at hv
      obtain ⟨h0, hd⟩ := hv
      subst h0 hd
      simp [holders] at hpos
  | cons op ops ih =>
      intro sys h d ha hv
      have hv2 := validFrom_cons h d op ops hv
      have hstart : ∀ pre suf, op :: ops = pre ++ suf → pre = [] →
          (exec sys pre).deleted = 0 ∧
          (exec sys pre).dev.kref = holders (pre.foldl track (h, d)) ∧
          0 < holders (pre.foldl track (h, d)) := by
        intro pre suf _ hp
        subst hp
        exact ⟨ha.1, ha.2.1, ha.2.2.2.2⟩
      rcases step_alive_or_last sys h d op ops ha hv with hal | ⟨hdel, hk, htr⟩
      · obtain ⟨r1, r2, r3⟩ := ih (step sys op).sys (track (h, d) op).1 (track (h, d) op).2
          hal hv2
        refine ⟨r1, r2, ?_⟩
        intro pre suf hsplit hsuf
        cases pre with
        | nil => exact hstart [] suf hsplit rfl
        | cons a pre2 =>
            simp only [List.cons_append, List.cons.injEq] at hsplit
            obtain ⟨ha2, hrest⟩ := hsplit
            subst ha2
            exact r3 pre2 suf hrest hsuf
      · rw [htr] at hv2
        have hnil := validFrom_dead ops hv2
        subst hnil
        refine ⟨hdel, hk, ?_⟩
        intro pre suf hsplit hsuf
        cases pre with
        | nil => exact hstart [] suf hsplit rfl
        | cons a pre2 =>
            simp only [List.cons_append, List.cons.injEq] at hsplit
            obtain ⟨-, hrest⟩ := hsplit
            have : suf = [] := by
              cases pre2 with
              | nil => simpa using hrest.symm
              | cons b pre3 => simp at hrest
            exact absurd this hsuf

theorem exec_append (a b : List Op) : ∀ sys : Sys, exec sys (a ++ b) = exec (exec sys a) b := by
  induction a with
  | nil => intro sys; rfl
  | cons op a ih => intro sys; exact ih (step sys op).sys

theorem traceOf_append (a b : List Op) :
    ∀ sys : Sys, traceOf sys (a ++ b) = traceOf sys a ++ traceOf (exec sys a) b := by
  induction a with
  | nil => intro sys; rfl
  | cons op a ih =>
      intro sys
      show (step sys op).trace ++ traceOf (step sys op).sys (a ++ b)
        = (step sys op).trace ++ traceOf (step sys op).sys a
          ++ traceOf (exec (step sys op).sys a) b
      rw [ih, List.append_assoc]

theorem putDevCalls_append (a b : List Event) :
    putDevCalls (a ++ b) = putDevCalls a ++ putDevCalls b := by
  induction a with
  | nil => rfl
  | cons e a ih => cases e <;> simp [putDevCalls, ih]

theorem devFrees_append (a b : List Event) : devFrees (a ++ b) = devFrees a + devFrees b := by
  induction a with
  | nil => simp [devFrees]
  | cons e a ih => cases e <;> simp [devFrees, ih]; omega

/-- A trace without teardown calls releases no transport handle and frees no
session. -/
theorem no_teardown_trace (l : List Event) (hl : ∀ e ∈ l, e.isTeardown = false) :
    putDevCalls l = [] ∧ devFrees l = 0 := by
  induction l with
  | nil => exact ⟨rfl, rfl⟩
  | cons e es ih =>
      have he := hl e (List.mem_cons_self _ _)
      have ih2 := ih (fun x hx => hl x (List.mem_cons_of_mem _ hx))
      cases e <;> simp_all [Event.isTeardown, putDevCalls, devFrees]

theorem wixusb_read_no_teardown (env : Env) (dev : usb_wixusb) (count : Nat) :
    ∀ e ∈ (wixusb_read env dev count).trace, e.isTeardown = false := by
  unfold wixusb_read
  simp only []
  split_ifs <;> simp [Event.isTeardown]

theorem wixusb_write_no_teardown (env : Env) (dev : usb_wixusb) (count : Nat) :
    ∀ e ∈ (wixusb_write env dev count).trace, e.isTeardown = false := by
  unfold wixusb_write
  simp only []
  split_ifs <;> simp [Event.isTeardown]

theorem ioctl_switch_no_teardown (env : Env) (dev : usb_wixusb) (cmd : Nat) (arg : UserArg) :
    ∀ e ∈ (ioctl_switch env dev cmd arg).trace, e.isTeardown = false := by
  unfold ioctl_switch
  split_ifs
  · unfold ioctl_send_ctrl
    split_ifs <;> simp [Event.isTeardown]
  · unfold ioctl_recv_ctrl
    simp only []
    split_ifs <;> simp [Event.isTeardown]
  · unfold ioctl_get_desc
    simp only []
    split_ifs <;> simp [Event.isTeardown]
  · unfold ioctl_set_pipe_pol
    simp only []
    split_ifs <;> simp [Event.isTeardown]
  · unfold ioctl_get_vid_pid
    split_ifs <;> simp [Event.isTeardown]
  · simp
  · unfold ioctl_write_int
    split_ifs <;> simp [Event.isTeardown]
  · simp

theorem wixusb_ioctl_no_teardown (env : Env) (dev : usb_wixusb) (cmd : Nat) (arg : UserArg) :
    ∀ e ∈ (wixusb_ioctl env dev cmd arg).trace, e.isTeardown = false := by
  intro e he
  rcases wixusb_ioctl_trace_mem env dev cmd arg e he with rfl | rfl | rfl | h
  · rfl
  · rfl
  · rfl
  · exact ioctl_switch_no_teardown env dev cmd arg e h

/-- The teardown calls of one operation are those of the runs of
wixusb_delete it adds to the counter: one usb_put_dev on the session's
transport handle and one free of the session per run.  The counter never
decreases and the transport handle of the session stays the same. -/
theorem step_teardown_calls (sys : Sys) (op : Op) :
    putDevCalls (step sys op).trace
      = List.replicate ((step sys op).sys.deleted - sys.deleted) sys.dev.usbdev ∧
    devFrees (step sys op).trace = (step sys op).sys.deleted - sys.deleted ∧
    sys.deleted ≤ (step sys op).sys.deleted ∧
    (step sys op).sys.dev.usbdev = sys.dev.usbdev := by
  cases op with
  | open_ =>
      unfold step wixusb_open
      split_ifs <;> simp [putDevCalls, devFrees]
  | read env count =>
      have h := no_teardown_trace _ (wixusb_read_no_teardown env sys.dev count)
      simp only [step, h.1, h.2, wixusb_read_dev]
      simp
  | write env count =>
      have h := no_teardown_trace _ (wixusb_write_no_teardown env sys.dev count)
      simp only [step, h.1, h.2, wixusb_write_dev]
      simp
  | ioctl env cmd arg =>
      have h := no_teardown_trace _ (wixusb_ioctl_no_teardown env sys.dev cmd arg)
      simp only [step, h.1, h.2]
      rw [wixusb_ioctl_fields env sys.dev cmd arg]
      simp
  | release =>
      simp only [step, wixusb_release, kref_put, wixusb_delete]
      split_ifs <;> simp [putDevCalls, devFrees]
  | disconnect =>
      simp only [step, wixusb_disconnect, kref_put, wixusb_delete]
      split_ifs <;> simp [putDevCalls, devFrees]

/-- Along any sequence, the trace holds one usb_put_dev on the session's
transport handle and one free of the session per run of wixusb_delete. -/
theorem traceOf_teardown_calls (ops : List Op) :
    ∀ sys : Sys,
      putDevCalls (traceOf sys ops)
        = List.replicate ((exec sys ops).deleted - sys.deleted) sys.dev.usbdev ∧
      devFrees (traceOf sys ops) = (exec sys ops).deleted - sys.deleted ∧
      sys.deleted ≤ (exec sys ops).deleted := by
  induction ops with
  | nil => intro sys; simp [traceOf, exec, putDevCalls, devFrees]
  | cons op ops ih =>
      intro sys
      obtain ⟨s1, s2, s3, s4⟩ := step_teardown_calls sys op
      obtain ⟨i1, i2, i3⟩ := ih (step sys op).sys
      simp only [traceOf, exec, putDevCalls_append, devFrees_append, s1, s2, i1, i2, s4]
      refine ⟨?_, by omega, by omega⟩
      rw [← List.replicate_add]
      congr 1
      omega

/-- C6: for a session created by attach (reference count 1) and every valid
sequence of N successful opens, the N matching releases and the single
disconnect (with any I/O calls on open handles in between), the teardown
wixusb_delete runs exactly once: the calls of the whole sequence contain
exactly one usb_put_dev, on the session's transport handle, and one free of the
session, both made by the last operation of the sequence, which is the
decrement that brings the reference count to zero.  After every proper initial
part of the sequence no usb_put_dev and no free of the session has been made,
and the reference count equals the number of holders left, which is positive. -/
theorem C6_teardown_exactly_once (usbdev iface idProduct : Nat) (ops : List Op)
    (hvalid : validFrom 0 false ops = true) :
    (exec (attach usbdev iface idProduct) ops).deleted = 1 ∧
    (exec (attach usbdev iface idProduct) ops).dev.kref = 0 ∧
    putDevCalls (traceOf (attach usbdev iface idProduct) ops) = [usbdev] ∧
    devFrees (traceOf (attach usbdev iface idProduct) ops) = 1 ∧
    (∀ pre last, ops = pre ++ [last] →
      putDevCalls (step (exec (attach usbdev iface idProduct) pre) last).trace = [usbdev] ∧
      devFrees (step (exec (attach usbdev iface idProduct) pre) last).trace = 1 ∧
      (step (exec (attach usbdev iface idProduct) pre) last).sys.dev.kref = 0) ∧
    ∀ pre suf, ops = pre ++ suf → suf ≠ [] →
      (exec (attach usbdev iface idProduct) pre).deleted = 0 ∧
      putDevCalls (traceOf (attach usbdev iface idProduct) pre) = [] ∧
      devFrees (traceOf (attach usbdev iface idProduct) pre) = 0 ∧
      (exec (attach usbdev iface idProduct) pre).dev.kref = holders (pre.foldl track (0, false)) ∧
      0 < holders (pre.foldl track (0, false)) := by
  obtain ⟨hdel, hk, hpre⟩ := lifecycle_aux ops (attach usbdev iface idProduct) 0 false
    ⟨rfl, rfl, rfl, rfl, by decide⟩ hvalid
  have hall := traceOf_teardown_calls ops (attach usbdev iface idProduct)
  have h0 : (attach usbdev iface idProduct).deleted = 0 := rfl
  have hu : (attach usbdev iface idProduct).dev.usbdev = usbdev := rfl
  rw [hdel, h0, hu] at hall
  have hparts : ∀ pre suf, ops = pre ++ suf → suf ≠ [] →
      (exec (attach usbdev iface idProduct) pre).deleted = 0 ∧
      putDevCalls (traceOf (attach usbdev iface idProduct) pre) = [] ∧
      devFrees (traceOf (attach usbdev iface idProduct) pre) = 0 ∧
      (exec (attach usbdev iface idProduct) pre).dev.kref = holders (pre.foldl track (0, false)) ∧
      0 < holders (pre.foldl track (0, false)) := by
    intro pre suf hsplit hsuf
    obtain ⟨p1, p2, p3⟩ := hpre pre suf hsplit hsuf
    have hp := traceOf_teardown_calls pre (attach usbdev iface idProduct)
    rw [p1, h0] at hp
    exact ⟨p1, by simpa using hp.1, by simpa using hp.2.1, p2, p3⟩
  refine ⟨hdel, hk, by simpa using hall.1, by simpa using hall.2.1, ?_, hparts⟩
  intro pre last hsplit
  obtain ⟨q1, q2, q3, -, -⟩ := hparts pre [last] hsplit (by simp)
  have ht : traceOf (attach usbdev iface idProduct) ops
      = traceOf (attach usbdev iface idProduct) pre
        ++ (step (exec (attach usbdev iface idProduct) pre) last).trace := by
    rw [hsplit, traceOf_append]
    simp [traceOf]
  have he : exec (attach usbdev iface idProduct) ops
      = (step (exec (attach usbdev iface idProduct) pre) last).sys := by
    rw [hsplit, exec_append]
    rfl
  have h1 := hall.1
  have h2 := hall.2.1
  rw [ht, putDevCalls_append, q2] at h1
  rw [ht, devFrees_append, q3] at h2
  refine ⟨by simpa using h1, by simpa using h2, ?_⟩
  rw [← he]
  exact hk

/-- Witness of C6: two opens, one release before and one after the disconnect. -/
theorem C6_teardown_exactly_once_witness :
    putDevCalls (traceOf (attach 1 1 1)
      [Op.open_, Op.open_, Op.release, Op.disconnect, Op.release]) = [1] ∧
    devFrees (traceOf (attach 1 1 1)
      [Op.open_, Op.open_, Op.release, Op.disconnect, Op.release]) = 1 ∧
    putDevCalls (traceOf (attach 1 1 1)
      [Op.open_, Op.open_, Op.release, Op.disconnect]) = [] :=
  have h := C6_teardown_exactly_once 1 1 1
    [Op.open_, Op.open_, Op.release, Op.disconnect, Op.release] (by decide)
  ⟨h.2.2.1, h.2.2.2.1,
    (h.2.2.2.2.2 [Op.open_, Op.open_, Op.release, Op.disconnect] [Op.release] rfl
      (by simp)).2.1⟩

/-! ## Theorems: the client facade -/

/-- C7: WinUsb_Connect opens the candidate nodes 0, 1, 2, ... in increasing
order; when node k < 10 is the lowest that opens, it returns that node's
handle after trying exactly the indices 0..k; when none of the ten opens, it
returns the negative value of the last open after exactly ten attempts. -/
theorem C7_connect_first_that_opens (open_ : Nat → Int) :
    (∀ k, k < 10 → 0 ≤ open_ k → (∀ j, j < k → open_ j < 0) →
      WinUsb_Connect open_ = (open_ k, List.range (k + 1))) ∧
    ((∀ j, j < 10 → open_ j < 0) →
      WinUsb_Connect open_ = (open_ 9, List.range 10) ∧
      (WinUsb_Connect open_).1 < 0 ∧ (WinUsb_Connect open_).2.length = 10) := by
  constructor
  · intro k hk hopen hprev
    have hn : ∀ j, j < k → ¬ (open_ j ≥ 0) := fun j hj => not_le.mpr (hprev j hj)
    interval_cases k <;>
      simp [WinUsb_Connect, WinUsb_Connect_loop, hopen, hn, hprev, List.range_succ]
  · intro hall
    have hn : ∀ j, j < 10 → ¬ (open_ j ≥ 0) := fun j hj => not_le.mpr (hall j hj)
    have h9 := hall 9 (by norm_num)
    simp [WinUsb_Connect, WinUsb_Connect_loop, hn, hall, List.range_succ, h9]

/-- Witness of C7: nodes 0-2 fail, node 3 opens as descriptor 7; the call
returns 7 and has tried the indices 0, 1, 2, 3 only. -/
theorem C7_connect_first_that_opens_witness :
    WinUsb_Connect sampleChan.open_ = (7, [0, 1, 2, 3]) :=
  (C7_connect_first_that_opens sampleChan.open_).1 3 (by decide) (by decide)
    (by decide)


theorem toU32_of_nat (n : Nat) (h : n < 2 ^ 31) : toU32 (n : Int) = n := by
  unfold toU32
  omega

theorem memcpy_get_lt (dst src : List Nat) (n i : Nat) (hn : n ≤ src.length) (hi : i < n) :
    (memcpy dst src n)[i]? = src[i]? := by
  unfold memcpy
  rw [List.getElem?_append_left (by simp; omega)]
  simp [List.getElem?_take, hi]

theorem memcpy_get_ge (dst src : List Nat) (n i : Nat) (hn : n ≤ src.length) (hi : n ≤ i) :
    (memcpy dst src n)[i]? = dst[i]? := by
  unfold memcpy
  rw [List.getElem?_append_right (by simp; omega)]
  simp only [List.length_take, List.getElem?_drop]
  congr 1
  omega

/-- C10: when the descriptor ioctl answers with a fetched length n >= 0,
WinUsb_GetDescriptor copies exactly the first min(n, BufferLength) bytes of
the packet's data over the start of Buffer, leaves the rest of Buffer as it
was, and returns WINUSB_SUCCESS; this holds for every BufferLength, also when
n > BufferLength, where the data is cut to BufferLength bytes. -/
theorem C10_get_descriptor_truncates (chan : Chan) (DescriptorType Index : Nat)
    (Buffer : List Nat) (BufferLength : Nat) (LengthTransferred : Option Nat) (n : Nat)
    (hint : n < 2 ^ 31)
    (hn : (chan.ioctl_desc { desc_type := DescriptorType, desc_idx := Index,
                             data := List.replicate DESC_BUFF_LENGTH 0 }).1 = n) :
    (WinUsb_GetDescriptor chan DescriptorType Index Buffer BufferLength LengthTransferred).ret
      = WINUSB_SUCCESS ∧
    (WinUsb_GetDescriptor chan DescriptorType Index Buffer BufferLength LengthTransferred).calls
      = [.ioctl IOCTL_GET_DESC, .memcpy_to_Buffer (min n BufferLength)] ∧
    (WinUsb_GetDescriptor chan DescriptorType Index Buffer BufferLength LengthTransferred).Buffer
      = memcpy Buffer
          (chan.ioctl_desc { desc_type := DescriptorType, desc_idx := Index,
                             data := List.replicate DESC_BUFF_LENGTH 0 }).2.data
          (min n BufferLength) ∧
    (min n BufferLength ≤
        (chan.ioctl_desc { desc_type := DescriptorType, desc_idx := Index,
                           data := List.replicate DESC_BUFF_LENGTH 0 }).2.data.length →
      ∀ i,
        (i < min n BufferLength →
          (WinUsb_GetDescriptor chan DescriptorType Index Buffer BufferLength
              LengthTransferred).Buffer[i]?
            = (chan.ioctl_desc { desc_type := DescriptorType, desc_idx := Index,
                                 data := List.replicate DESC_BUFF_LENGTH 0 }).2.data[i]?) ∧
        (min n BufferLength ≤ i →
          (WinUsb_GetDescriptor chan DescriptorType Index Buffer BufferLength
              LengthTransferred).Buffer[i]? = Buffer[i]?)) := by
  have hneg : ¬ ((n : Int) < 0) := by omega
  have hu := toU32_of_nat n hint
  have hmin : (if n < BufferLength then n else BufferLength) = min n BufferLength := by
    split_ifs <;> omega
  have hB : (WinUsb_GetDescriptor chan DescriptorType Index Buffer BufferLength
      LengthTransferred).Buffer
      = memcpy Buffer
          (chan.ioctl_desc { desc_type := DescriptorType, desc_idx := Index,
                             data := List.replicate DESC_BUFF_LENGTH 0 }).2.data
          (min n BufferLength) := by
    simp only [WinUsb_GetDescriptor, hn, hneg, if_false, hu, hmin]
  refine ⟨?_, ?_, hB, ?_⟩
  · simp only [WinUsb_GetDescriptor, hn, hneg, if_false]
  · simp only [WinUsb_GetDescriptor, hn, hneg, if_false, hu, hmin]
  · intro hlen i
    rw [hB]
    exact ⟨memcpy_get_lt _ _ _ _ hlen, memcpy_get_ge _ _ _ _ hlen⟩

/-- Witness of C10: the ioctl fetches 18 bytes, the caller's capacity is 4; the
first 4 bytes are copied and the call succeeds. -/
theorem C10_get_descriptor_truncates_witness :
    (WinUsb_GetDescriptor sampleChan 1 0 [0, 0, 0, 0] 4 (some 0)).ret = WINUSB_SUCCESS ∧
    (WinUsb_GetDescriptor sampleChan 1 0 [0, 0, 0, 0] 4 (some 0)).Buffer
      = memcpy [0, 0, 0, 0] (List.range' 1 128) (min 18 4) :=
  have h := C10_get_descriptor_truncates sampleChan 1 0 [0, 0, 0, 0] 4 (some 0) 18
    (by decide) rfl
  ⟨h.1, h.2.2.1⟩


/-! ## Theorems: pipe policy and oversized writes -/

/-- On a connected session whose scratch allocation and packet copy succeed,
the set-pipe-policy ioctl is the policy switch between the lock and the
unlock. -/
theorem wixusb_ioctl_set_pipe_pol_eq (env : Env) (dev : usb_wixusb) (arg : UserArg)
    (hconn : dev.interface ≠ none) :
    wixusb_ioctl env dev IOCTL_SET_PIPE_POL arg =
      ⟨(ioctl_set_pipe_pol env dev arg).retval, (ioctl_set_pipe_pol env dev arg).dev,
        [.mutex_lock] ++ (ioctl_set_pipe_pol env dev arg).trace ++ [.mutex_unlock] ++
          (if (ioctl_set_pipe_pol env dev arg).buff then [.kfree] else [])⟩ := by
  have hn := isNone_eq_false_of_ne_none _ hconn
  have hm : _IOC_TYPE IOCTL_SET_PIPE_POL = WIXUSB_IOC_MAGIC := by decide
  have h3 : IOCTL_SET_PIPE_POL ≠ IOCTL_SEND_CTRL := by decide
  have h4 : IOCTL_SET_PIPE_POL ≠ IOCTL_RECV_CTRL := by decide
  have h5 : IOCTL_SET_PIPE_POL ≠ IOCTL_GET_DESC := by decide
  simp [wixusb_ioctl, hn, hm, ioctl_switch, h3, h4, h5]

/-- C11: on a connected session, for every pipe-policy packet (kind, value)
that wixusb_ioctl has copied in (the scratch allocation and the copy from the
caller succeed; value is a 32-bit word): kind short-packet-terminate returns 0
and leaves the session unchanged; kind transfer-timeout returns 0, stores value
as the timeout and leaves every other field unchanged; any other kind returns
-EINVAL and leaves the session unchanged.  No USB transfer primitive is called
in any case. -/
theorem C11_set_pipe_policy (env : Env) (dev : usb_wixusb) (arg : UserArg)
    (hconn : dev.interface ≠ none) (hk : env.kmalloc_ok = true)
    (hf : env.copy_from_user_ok = true) (hval : arg.policy.policy_value < 2 ^ 32) :
    (arg.policy.policy_type = SHORT_PACKET_TERMINATE →
      (wixusb_ioctl env dev IOCTL_SET_PIPE_POL arg).retval = 0 ∧
      (wixusb_ioctl env dev IOCTL_SET_PIPE_POL arg).dev = dev) ∧
    (arg.policy.policy_type = PIPE_TRANSFER_TIMEOUT →
      (wixusb_ioctl env dev IOCTL_SET_PIPE_POL arg).retval = 0 ∧
      (wixusb_ioctl env dev IOCTL_SET_PIPE_POL arg).dev
        = { dev with timeout := arg.policy.policy_value }) ∧
    (arg.policy.policy_type ≠ SHORT_PACKET_TERMINATE →
      arg.policy.policy_type ≠ PIPE_TRANSFER_TIMEOUT →
      (wixusb_ioctl env dev IOCTL_SET_PIPE_POL arg).retval = -EINVAL ∧
      (wixusb_ioctl env dev IOCTL_SET_PIPE_POL arg).dev = dev) ∧
    (∀ e ∈ (wixusb_ioctl env dev IOCTL_SET_PIPE_POL arg).trace, e.isTransfer = false) := by
  have hs : PIPE_TRANSFER_TIMEOUT ≠ SHORT_PACKET_TERMINATE := by decide
  rw [wixusb_ioctl_set_pipe_pol_eq env dev arg hconn]
  refine ⟨?_, ?_, ?_, ?_⟩
  · intro h
    simp [ioctl_set_pipe_pol, hk, hf, h]
  · intro h
    simp [ioctl_set_pipe_pol, hk, hf, h, hs]
    omega
  · intro h1 h2
    simp [ioctl_set_pipe_pol, hk, hf, h1, h2]
  · by_cases h1 : arg.policy.policy_type = SHORT_PACKET_TERMINATE
    · simp [ioctl_set_pipe_pol, hk, hf, h1, Event.isTransfer]
    · by_cases h2 : arg.policy.policy_type = PIPE_TRANSFER_TIMEOUT
      · simp [ioctl_set_pipe_pol, hk, hf, h2, hs, Event.isTransfer]
      · simp [ioctl_set_pipe_pol, hk, hf, h1, h2, Event.isTransfer]

/-- Witness of C11: kind transfer-timeout, value 500, on a session with
timeout 0. -/
theorem C11_set_pipe_policy_witness :
    (wixusb_ioctl (Env.const ⟨0, 0⟩) (sampleDev 0) IOCTL_SET_PIPE_POL (sampleArg 8)).retval = 0 ∧
    (wixusb_ioctl (Env.const ⟨0, 0⟩) (sampleDev 0) IOCTL_SET_PIPE_POL (sampleArg 8)).dev
      = sampleDev 500 :=
  (C11_set_pipe_policy (Env.const ⟨0, 0⟩) (sampleDev 0) (sampleArg 8) (by decide) rfl rfl
    (by decide)).2.1 rfl

/-- C12, as the claim states it, fails: a write of 4097 bytes on a connected
session and a write of 16 bytes whose scratch allocation fails return the same
value, -ENOMEM; the oversized request has no error code of its own. -/
theorem C12_too_large_is_enomem :
    (wixusb_write (Env.const ⟨0, 0⟩) (sampleDev 0) 4097).retval = -ENOMEM ∧
    (wixusb_write { Env.const ⟨0, 0⟩ with kmalloc_ok := false } (sampleDev 0) 16).retval
      = -ENOMEM ∧
    (wixusb_write (Env.const ⟨0, 0⟩) (sampleDev 0) 4097).retval
      = (wixusb_write { Env.const ⟨0, 0⟩ with kmalloc_ok := false } (sampleDev 0) 16).retval := by
  decide

/-- C12 (amended): a wixusb_write on a connected session with count greater
than WIXUSB_BUFFSIZE = 4096 returns -ENOMEM, the value a write also returns
when its scratch allocation fails; it calls no USB transfer primitive, makes no
allocation and leaves the session unchanged. -/
theorem C12_oversized_write_rejected (env : Env) (dev : usb_wixusb) (count : Nat)
    (hconn : dev.interface ≠ none) (hbig : count > WIXUSB_BUFFSIZE) :
    (wixusb_write env dev count).retval = -ENOMEM ∧
    (∀ (env2 : Env) (count2 : Nat), count2 ≠ 0 → count2 ≤ WIXUSB_BUFFSIZE →
      env2.kmalloc_ok = false →
      (wixusb_write env2 dev count2).retval = (wixusb_write env dev count).retval) ∧
    (wixusb_write env dev count).trace = [.mutex_lock, .mutex_unlock] ∧
    (∀ e ∈ (wixusb_write env dev count).trace, e.isTransfer = false) ∧
    (wixusb_write env dev count).dev = dev := by
  have hn := isNone_eq_false_of_ne_none _ hconn
  have hc : count ≠ 0 := by unfold WIXUSB_BUFFSIZE at hbig; omega
  refine ⟨?_, ?_, ?_, ?_, ?_⟩
  · simp [wixusb_write, hc, hn, hbig]
  · intro env2 count2 hc2 hle hk2
    have hnb : ¬ count2 > WIXUSB_BUFFSIZE := by omega
    simp [wixusb_write, hc, hn, hbig, hc2, hnb, hk2]
  · simp [wixusb_write, hc, hn, hbig]
  · simp [wixusb_write, hc, hn, hbig, Event.isTransfer]
  · simp [wixusb_write, hc, hn, hbig]

/-- Witness of C12 (amended): 4097 bytes on a connected session. -/
theorem C12_oversized_write_rejected_witness :
    (wixusb_write (Env.const ⟨0, 0⟩) (sampleDev 0) 4097).retval = -ENOMEM ∧
    (wixusb_write (Env.const ⟨0, 0⟩) (sampleDev 0) 4097).trace
      = [.mutex_lock, .mutex_unlock] :=
  have h := C12_oversized_write_rejected (Env.const ⟨0, 0⟩) (sampleDev 0) 4097 (by decide)
    (by decide)
  ⟨h.1, h.2.2.1⟩

/-! ## Theorems: return conventions of the facade -/

/-- The bulk calls return FALSE when the channel call gives a negative result,
for every length that passes the local check. -/
theorem bulk_negative_result_is_FALSE (chan : Chan) (Buffer : List Nat) (BufferLength : Nat)
    (LengthTransferred : Option Nat) (hlen : BufferLength ≤ BULK_BUFF_LENGTH) :
    (data_receive chan BufferLength < 0 →
      WixUsb_ReadBulk chan Buffer BufferLength LengthTransferred
        = ⟨FALSE, Buffer, LengthTransferred, [.read BufferLength]⟩) ∧
    (data_send chan Buffer BufferLength < 0 →
      WixUsb_BulkTransfer chan Buffer BufferLength LengthTransferred
        = ⟨FALSE, Buffer, LengthTransferred, [.write BufferLength]⟩) := by
  have hnb : ¬ BufferLength > BULK_BUFF_LENGTH := by omega
  constructor
  · intro h
    simp [WixUsb_ReadBulk, hnb, h]
  · intro h
    simp [WixUsb_BulkTransfer, hnb, h]

/-- The control-transfer call returns the negative result of the channel call
itself, in both directions, for every length that passes the local check. -/
theorem control_transfer_negative_result (chan : Chan) (SetupPacket : WINUSB_SETUP_PACKET)
    (Buffer : List Nat) (BufferLength : Nat) (LengthTransferred : Option Nat)
    (hlen : BufferLength ≤ CTRL_BUFF_LENGTH) :
    (SETUP_PACKET_IS_INPUT SetupPacket.RequestType = true →
      (chan.ioctl_ctrl IOCTL_RECV_CTRL
        { winusb_packet := SetupPacket, data := List.replicate CTRL_BUFF_LENGTH 0 }).1 < 0 →
      (WinUsb_ControlTransfer chan SetupPacket Buffer BufferLength LengthTransferred).ret
        = (chan.ioctl_ctrl IOCTL_RECV_CTRL
            { winusb_packet := SetupPacket, data := List.replicate CTRL_BUFF_LENGTH 0 }).1) ∧
    (SETUP_PACKET_IS_INPUT SetupPacket.RequestType = false →
      (chan.ioctl_ctrl IOCTL_SEND_CTRL
        { winusb_packet := SetupPacket,
          data := memcpy (List.replicate CTRL_BUFF_LENGTH 0) Buffer BufferLength }).1 < 0 →
      (WinUsb_ControlTransfer chan SetupPacket Buffer BufferLength LengthTransferred).ret
        = (chan.ioctl_ctrl IOCTL_SEND_CTRL
            { winusb_packet := SetupPacket,
              data := memcpy (List.replicate CTRL_BUFF_LENGTH 0) Buffer BufferLength }).1) := by
  have hnb : ¬ BufferLength > CTRL_BUFF_LENGTH := by omega
  constructor
  · intro hin h
    simp [WinUsb_ControlTransfer, hnb, hin, h]
  · intro hin h
    simp [WinUsb_ControlTransfer, hnb, hin, h]

/-- C13: evaluation at the failing inputs.  With 8 bytes of capacity, which
pass the local check, and a control ioctl that returns -1, WinUsb_ControlTransfer
returns -1 in the device-to-host direction (RequestType 0x80) and in the
host-to-device direction (RequestType 0x00); -1 is not FALSE. -/
theorem C13_control_transfer_returns_numeric_code :
    WinUsb_ControlTransfer (failingChan (-1) 19) ⟨0x80, 6, 0x100, 0, 8⟩
        [0, 0, 0, 0, 0, 0, 0, 0] 8 (some 0)
      = ⟨-1, [0, 0, 0, 0, 0, 0, 0, 0], some 0, [.ioctl IOCTL_RECV_CTRL]⟩ ∧
    WinUsb_ControlTransfer (failingChan (-1) 19) ⟨0x00, 9, 1, 0, 8⟩
        [0, 0, 0, 0, 0, 0, 0, 0] 8 (some 0)
      = ⟨-1, [0, 0, 0, 0, 0, 0, 0, 0], some 0,
          [.memcpy_to_packet 8, .ioctl IOCTL_SEND_CTRL]⟩ ∧
    (-1 : Int) ≠ FALSE := by
  decide

/-- C14, as the claim states it, fails: when the descriptor ioctl returns -1,
WinUsb_GetDescriptor returns WINUSB_FAIL, which is 0, and not -1. -/
theorem C14_get_descriptor_returns_fail_flag :
    (failingChan (-1) 19).ioctl_desc
        { desc_type := 1, desc_idx := 0, data := List.replicate DESC_BUFF_LENGTH 0 }
      = (-1, { desc_type := 1, desc_idx := 0, data := List.replicate DESC_BUFF_LENGTH 0 }) ∧
    (WinUsb_GetDescriptor (failingChan (-1) 19) 1 0 [0, 0, 0, 0] 4 (some 0)).ret = 0 ∧
    (WinUsb_GetDescriptor (failingChan (-1) 19) 1 0 [0, 0, 0, 0] 4 (some 0)).ret ≠ -1 := by
  decide

/-- C14 (amended): when the descriptor ioctl returns a negative code e,
WinUsb_GetDescriptor returns WINUSB_FAIL (the boolean failure value 0) whatever
e is, makes no copy, and leaves Buffer and the length output as they were. -/
theorem C14_get_descriptor_failure (chan : Chan) (DescriptorType Index : Nat)
    (Buffer : List Nat) (BufferLength : Nat) (LengthTransferred : Option Nat)
    (hneg : (chan.ioctl_desc { desc_type := DescriptorType, desc_idx := Index,
                               data := List.replicate DESC_BUFF_LENGTH 0 }).1 < 0) :
    WinUsb_GetDescriptor chan DescriptorType Index Buffer BufferLength LengthTransferred
      = ⟨WINUSB_FAIL, Buffer, LengthTransferred, [.ioctl IOCTL_GET_DESC]⟩ ∧
    WINUSB_FAIL = 0 := by
  constructor
  · simp only [WinUsb_GetDescriptor, hneg, if_true]
  · rfl

/-- Witness of C14 (amended): the descriptor ioctl returns -1. -/
theorem C14_get_descriptor_failure_witness :
    WinUsb_GetDescriptor (failingChan (-1) 19) 1 0 [0, 0, 0, 0] 4 (some 0)
      = ⟨WINUSB_FAIL, [0, 0, 0, 0], some 0, [.ioctl IOCTL_GET_DESC]⟩ ∧
    WINUSB_FAIL = 0 :=
  C14_get_descriptor_failure (failingChan (-1) 19) 1 0 [0, 0, 0, 0] 4 (some 0) (by decide)

/-- A facade call with a length above the fixed capacity makes no channel call
and leaves Buffer and the length output as they were. -/
theorem oversized_length_is_local (chan : Chan) (SetupPacket : WINUSB_SETUP_PACKET)
    (Buffer : List Nat) (BufferLength : Nat) (LengthTransferred : Option Nat) :
    (BufferLength > CTRL_BUFF_LENGTH →
      WinUsb_ControlTransfer chan SetupPacket Buffer BufferLength LengthTransferred
        = ⟨FALSE, Buffer, LengthTransferred, []⟩) ∧
    (BufferLength > BULK_BUFF_LENGTH →
      WixUsb_ReadBulk chan Buffer BufferLength LengthTransferred
        = ⟨-1, Buffer, LengthTransferred, []⟩) ∧
    (BufferLength > BULK_BUFF_LENGTH →
      WixUsb_BulkTransfer chan Buffer BufferLength LengthTransferred
        = ⟨-1, Buffer, LengthTransferred, []⟩) := by
  refine ⟨?_, ?_, ?_⟩ <;> intro h
  · simp [WinUsb_ControlTransfer, h]
  · simp [WixUsb_ReadBulk, h]
  · simp [WixUsb_BulkTransfer, h]

/-- C15: evaluation at the failing input.  With BufferLength 4097, above the
bulk capacity 4096, WixUsb_ReadBulk and WixUsb_BulkTransfer make no channel
call and leave Buffer and the length output untouched, and they return -1,
which is not FALSE. -/
theorem C15_oversized_bulk_returns_minus_one (chan : Chan) (Buffer : List Nat)
    (LengthTransferred : Option Nat) :
    WixUsb_ReadBulk chan Buffer 4097 LengthTransferred
      = ⟨-1, Buffer, LengthTransferred, []⟩ ∧
    WixUsb_BulkTransfer chan Buffer 4097 LengthTransferred
      = ⟨-1, Buffer, LengthTransferred, []⟩ ∧
    (-1 : Int) ≠ FALSE := by
  refine ⟨?_, ?_, by decide⟩
  · simp [WixUsb_ReadBulk, BULK_BUFF_LENGTH]
  · simp [WixUsb_BulkTransfer, BULK_BUFF_LENGTH]

/-- A device-to-host control transfer that passes the local check and whose
ioctl returns n >= 0 copies exactly n bytes into Buffer, with no comparison
against BufferLength. -/
theorem control_transfer_in_copies_result (chan : Chan) (SetupPacket : WINUSB_SETUP_PACKET)
    (Buffer : List Nat) (BufferLength : Nat) (LengthTransferred : Option Nat) (n : Nat)
    (hlen : BufferLength ≤ CTRL_BUFF_LENGTH)
    (hin : SETUP_PACKET_IS_INPUT SetupPacket.RequestType = true)
    (hn : (chan.ioctl_ctrl IOCTL_RECV_CTRL
        { winusb_packet := SetupPacket, data := List.replicate CTRL_BUFF_LENGTH 0 }).1 = n) :
    (WinUsb_ControlTransfer chan SetupPacket Buffer BufferLength LengthTransferred).calls
      = [.ioctl IOCTL_RECV_CTRL, .memcpy_to_Buffer n] := by
  have hnb : ¬ BufferLength > CTRL_BUFF_LENGTH := by omega
  have hneg : ¬ ((n : Int) < 0) := by omega
  simp [WinUsb_ControlTransfer, hnb, hin, hn, hneg]

/-- C16: evaluation at the failing input.  The caller's capacity is 8 bytes,
the setup packet asks for 64 and the control ioctl returns 64; the call
succeeds and copies 64 bytes into the 8-byte Buffer, so that 64 bytes of the
packet data lie where the caller had 8. -/
theorem C16_control_transfer_overruns_buffer :
    SETUP_PACKET_IS_INPUT 0x80 = true ∧ 8 ≤ CTRL_BUFF_LENGTH ∧
    (WinUsb_ControlTransfer (ctrlChan 64) ⟨0x80, 6, 0x100, 0, 64⟩
        [0, 0, 0, 0, 0, 0, 0, 0] 8 (some 0)).ret = TRUE ∧
    (WinUsb_ControlTransfer (ctrlChan 64) ⟨0x80, 6, 0x100, 0, 64⟩
        [0, 0, 0, 0, 0, 0, 0, 0] 8 (some 0)).calls
      = [.ioctl IOCTL_RECV_CTRL, .memcpy_to_Buffer 64] ∧
    (WinUsb_ControlTransfer (ctrlChan 64) ⟨0x80, 6, 0x100, 0, 64⟩
        [0, 0, 0, 0, 0, 0, 0, 0] 8 (some 0)).Buffer = List.range' 1 64 ∧
    ¬ (64 ≤ 8) := by
  decide

/-! ## Theorems: the serialization lock -/

/-- Lock-neutral events count for nothing and do not move the lock. -/
theorem lockNeutral_trace (l : List Event) (hl : ∀ e ∈ l, e.lockNeutral = true) :
    ∀ (held : Bool) (r : List Event),
      acquired (l ++ r) = acquired r ∧ released (l ++ r) = released r ∧
      lockReplay held (l ++ r) = lockReplay held r := by
  induction l with
  | nil => intro held r; simp
  | cons e es ih =>
      intro held r
      have he := hl e (List.mem_cons_self _ _)
      have ih2 := ih (fun x hx => hl x (List.mem_cons_of_mem _ hx)) held r
      cases e <;> simp_all [Event.lockNeutral, acquired, released, lockReplay]

theorem ioctl_switch_trace_neutral (env : Env) (dev : usb_wixusb) (cmd : Nat) (arg : UserArg) :
    ∀ e ∈ (ioctl_switch env dev cmd arg).trace, e.lockNeutral = true := by
  unfold ioctl_switch
  split_ifs
  · unfold ioctl_send_ctrl
    split_ifs <;> simp [Event.lockNeutral]
  · unfold ioctl_recv_ctrl
    simp only []
    split_ifs <;> simp [Event.lockNeutral]
  · unfold ioctl_get_desc
    simp only []
    split_ifs <;> simp [Event.lockNeutral]
  · unfold ioctl_set_pipe_pol
    simp only []
    split_ifs <;> simp [Event.lockNeutral]
  · unfold ioctl_get_vid_pid
    split_ifs <;> simp [Event.lockNeutral]
  · simp
  · unfold ioctl_write_int
    split_ifs <;> simp [Event.lockNeutral]
  · simp

/-- A trace made of one lock, lock-neutral calls, one unlock and lock-neutral
calls is balanced and acquires the lock once. -/
theorem lock_body_unlock_balanced (body tail : List Event)
    (hb : ∀ e ∈ body, e.lockNeutral = true) (ht : ∀ e ∈ tail, e.lockNeutral = true) :
    lockBalanced ([Event.mutex_lock] ++ body ++ [Event.mutex_unlock] ++ tail) ∧
    acquired ([Event.mutex_lock] ++ body ++ [Event.mutex_unlock] ++ tail) = 1 := by
  have hform : [Event.mutex_lock] ++ body ++ [Event.mutex_unlock] ++ tail
      = Event.mutex_lock :: (body ++ Event.mutex_unlock :: tail) := by simp
  obtain ⟨a1, r1, p1⟩ := lockNeutral_trace body hb true (Event.mutex_unlock :: tail)
  obtain ⟨a2, r2, p2⟩ := lockNeutral_trace tail ht false []
  simp only [List.append_nil] at a2 r2 p2
  rw [hform]
  have ea : acquired (Event.mutex_lock :: (body ++ Event.mutex_unlock :: tail)) = 1 := by
    simp [acquired, a1, a2]
  have er : released (Event.mutex_lock :: (body ++ Event.mutex_unlock :: tail)) = 1 := by
    simp [released, r1, r2]
  have ep : lockReplay false (Event.mutex_lock :: (body ++ Event.mutex_unlock :: tail))
      = some false := by
    simp [lockReplay, p1, p2]
  exact ⟨⟨by rw [er, ea], by rw [ea], ep⟩, ea⟩

theorem wixusb_ioctl_lock (env : Env) (dev : usb_wixusb) (cmd : Nat) (arg : UserArg) :
    lockBalanced (wixusb_ioctl env dev cmd arg).trace ∧
    acquired (wixusb_ioctl env dev cmd arg).trace = 1 := by
  unfold wixusb_ioctl
  simp only []
  by_cases h1 : dev.interface.isNone = true
  · simp [h1, lockBalanced, acquired, released, lockReplay]
  · by_cases h2 : _IOC_TYPE cmd ≠ WIXUSB_IOC_MAGIC
    · simp [h1, h2, lockBalanced, acquired, released, lockReplay]
    · simp only [h1, h2, if_false]
      refine lock_body_unlock_balanced _ _ (ioctl_switch_trace_neutral env dev cmd arg) ?_
      intro e he
      split_ifs at he
      · simp only [List.mem_singleton] at he
        subst he
        rfl
      · simp at he

theorem wixusb_read_lock (env : Env) (dev : usb_wixusb) (count : Nat) :
    lockBalanced (wixusb_read env dev count).trace ∧
    acquired (wixusb_read env dev count).trace
      = if count = 0 ∨ env.lock_interrupted = true then 0 else 1 := by
  unfold wixusb_read
  simp only []
  split_ifs <;> simp_all [lockBalanced, acquired, released, lockReplay]

theorem wixusb_write_lock (env : Env) (dev : usb_wixusb) (count : Nat) :
    lockBalanced (wixusb_write env dev count).trace ∧
    acquired (wixusb_write env dev count).trace = if count = 0 then 0 else 1 := by
  unfold wixusb_write
  simp only []
  split_ifs <;> simp_all [lockBalanced, acquired, released, lockReplay]

/-- C17: on every return path of wixusb_ioctl, wixusb_read and wixusb_write the
trace of the call releases the serialization lock exactly as many times as it
acquires it, never unlocks a lock that is not held, and leaves the lock free.
wixusb_ioctl acquires it once on every path; wixusb_read acquires it once
unless count is zero or the interruptible wait is interrupted, and then not at
all; wixusb_write acquires it once unless count is zero, and then not at all. -/
theorem C17_lock_released_once (env : Env) (dev : usb_wixusb) (cmd : Nat) (arg : UserArg)
    (count : Nat) :
    (lockBalanced (wixusb_ioctl env dev cmd arg).trace ∧
      acquired (wixusb_ioctl env dev cmd arg).trace = 1) ∧
    (lockBalanced (wixusb_read env dev count).trace ∧
      acquired (wixusb_read env dev count).trace
        = if count = 0 ∨ env.lock_interrupted = true then 0 else 1) ∧
    (lockBalanced (wixusb_write env dev count).trace ∧
      acquired (wixusb_write env dev count).trace = if count = 0 then 0 else 1) :=
  ⟨wixusb_ioctl_lock env dev cmd arg, wixusb_read_lock env dev count,
    wixusb_write_lock env dev count⟩

end Wixusb
